import Mathlib

/-!
A verification development for the MentorMind AI-pipeline backend
(`backend/app/services/retry_handler.py`, `agent_orchestrator.py`,
`video_processor.py`).

The Python code is shallowly embedded: Python `str` values become `String`
(or `List Char` where character-level scanning matters), Python `float`
becomes `ℚ` (exact rationals standing in for IEEE doubles; every property
proved here is insensitive to rounding), Python `int` becomes `ℤ`/`ℕ`,
decoded JSON values become the `JValue` inductive, raised exceptions become
`Except` errors, and outbound network calls become oracle functions passed
in as parameters.  Unicode-specific behaviour of `str.lower`, `str.strip`
and `int(str)` is modelled for the ASCII range.
-/

namespace MentorMind

/-! ### Python string primitives -/

/-- Characters treated as whitespace by Python `str.strip()` / `str.split()`
(ASCII range: space, tab, newline, vertical tab, form feed, carriage return). -/
def pyIsSpace (c : Char) : Bool :=
  c = ' ' || c = '\t' || c = '\n' || c = '\x0b' || c = '\x0c' || c = '\r'

/-- Python `str.strip()` over a character list. -/
def pyStripL (s : List Char) : List Char :=
  ((s.dropWhile pyIsSpace).reverse.dropWhile pyIsSpace).reverse

/-- Python `str.strip()` on `String`. -/
def pyStrip (s : String) : String :=
  ⟨pyStripL s.data⟩

/-- Python `str.lower()` on one character (ASCII range). -/
def pyLowerChar (c : Char) : Char :=
  if 'A' ≤ c ∧ c ≤ 'Z' then Char.ofNat (c.toNat + 32) else c

/-- Python `str.lower()` on `String` (ASCII range). -/
def pyLower (s : String) : String :=
  ⟨s.data.map pyLowerChar⟩

/-- Python decimal digit test. -/
def pyIsDigit (c : Char) : Bool :=
  '0' ≤ c ∧ c ≤ '9'

/-- Digit run (possibly with single underscores between digits, as Python
`int()` allows) to its value; `none` when the run is malformed. -/
def pyDigitsValue : List Char → Option ℕ
  | [] => none
  | cs =>
    let core := cs.filter (· ≠ '_')
    if cs.head? = some '_' || cs.getLast? = some '_' then none
    else if (cs.zip (cs.drop 1)).any (fun p => p.1 = '_' ∧ p.2 = '_') then none
    else if core.isEmpty || core.any (fun c => ¬ pyIsDigit c) then none
    else some (core.foldl (fun n c => n * 10 + (c.toNat - '0'.toNat)) 0)

/-- Python `int(s)` for a string argument: strips whitespace, accepts an
optional sign followed by digits (underscores allowed between digits);
`none` models the `ValueError` raised otherwise (ASCII digits only). -/
def pyIntOfString (s : String) : Option ℤ :=
  match pyStripL s.data with
  | [] => none
  | '+' :: rest => (pyDigitsValue rest).map (fun n => (n : ℤ))
  | '-' :: rest => (pyDigitsValue rest).map (fun n => -(n : ℤ))
  | cs => (pyDigitsValue cs).map (fun n => (n : ℤ))

/-- `sep.isPrefixOf s` over char lists. -/
def isPrefixL (sep s : List Char) : Bool :=
  decide (sep <+: s)

/-- Index of the first occurrence of `sub` inside `s` (Python `str.find`),
`none` when absent. -/
def findSubL (sub : List Char) : List Char → Option ℕ
  | [] => if sub = [] then some 0 else none
  | c :: rest =>
    if isPrefixL sub (c :: rest) then some 0
    else (findSubL sub rest).map (· + 1)

/-- Python `sub in s` containment test. -/
def containsSub (sub s : List Char) : Bool :=
  (findSubL sub s).isSome

/-- Python `s.split(sep)` for a non-empty separator: non-overlapping
occurrences, scanned left to right.  `fuel` bounds recursion (call with
`s.length`); `acc` is the current piece, reversed. -/
def splitOnSubGo (sep : List Char) : ℕ → List Char → List Char → List (List Char)
  | _, [], acc => [acc.reverse]
  | 0, rest, acc => [acc.reverse ++ rest]
  | fuel + 1, c :: rest, acc =>
    if isPrefixL sep (c :: rest) then
      acc.reverse :: splitOnSubGo sep fuel (List.drop sep.length (c :: rest)) []
    else
      splitOnSubGo sep fuel rest (c :: acc)

/-- Python `s.split(sep)` (non-empty `sep`). -/
def splitOnSub (sep s : List Char) : List (List Char) :=
  splitOnSubGo sep s.length s []

/-! ### Decoded JSON values

Models the results of Python `json.loads` relevant to this code base
(floats are outside the model; every property proved below treats parse
results opaquely or uses float-free inputs). -/

inductive JValue where
  | null
  | bool (b : Bool)
  | int (n : ℤ)
  | str (s : String)
  | arr (xs : List JValue)
  | obj (fields : List (String × JValue))
  deriving Repr

/-- Python dict lookup `d.get(k)` on the association-list model of a dict
(keys unique in any dict produced by `json.loads`; first match wins). -/
def jget (d : List (String × JValue)) (k : String) : Option JValue :=
  (d.find? (fun p => p.1 = k)).map (·.2)

/-- Python truthiness of a decoded JSON value. -/
def pyTruthy : JValue → Bool
  | .null => false
  | .bool b => b
  | .int n => n ≠ 0
  | .str s => s ≠ ""
  | .arr xs => ¬ xs.isEmpty
  | .obj d => ¬ d.isEmpty

/-- ASCII apostrophe, kept out of string literals. -/
def aposChar : Char := Char.ofNat 39

mutual

/-- Python `repr` of a decoded JSON value (simplified: strings are wrapped
in apostrophes without escape handling; only used by `pyStr` below for
non-string operands of `str()`, which the flows proved about never hit). -/
def pyRepr : JValue → String
  | .null => "None"
  | .bool b => if b then "True" else "False"
  | .int n => toString n
  | .str s => String.singleton aposChar ++ s ++ String.singleton aposChar
  | .arr xs => "[" ++ String.intercalate ", " (pyReprList xs) ++ "]"
  | .obj d => "\x7b" ++ String.intercalate ", " (pyReprFields d) ++ "\x7d"

/-- `repr` of the elements of a decoded JSON array. -/
def pyReprList : List JValue → List String
  | [] => []
  | x :: xs => pyRepr x :: pyReprList xs

/-- `repr` of the entries of a decoded JSON object. -/
def pyReprFields : List (String × JValue) → List String
  | [] => []
  | (k, v) :: d =>
      (String.singleton aposChar ++ k ++ String.singleton aposChar ++ ": " ++ pyRepr v)
        :: pyReprFields d

end

/-- Python `str(x)` of a decoded JSON value. -/
def pyStr : JValue → String
  | .str s => s
  | v => pyRepr v

/-- Python `int(x)` coercion of a decoded JSON value: `none` models the
`ValueError`/`TypeError` raised for non-coercible values. -/
def pyIntOfJValue : JValue → Option ℤ
  | .int n => some n
  | .bool b => some (if b then 1 else 0)
  | .str s => pyIntOfString s
  | _ => none

/-! ### A model of Python `json.loads`

Strict recursive-descent parser for the JSON subset this code base
exchanges: objects, arrays, strings (with the common escapes), integers,
`true`/`false`/`null`.  Floats and `\u` escapes are outside the model, as
is the rejection of leading zeros; the properties proved below treat parse
results opaquely or use inputs inside the subset. -/

/-- Opening brace character. -/
def obraceChar : Char := Char.ofNat 123

/-- Closing brace character. -/
def cbraceChar : Char := Char.ofNat 125

/-- JSON inter-token whitespace. -/
def jsonWs (s : List Char) : List Char :=
  s.dropWhile (fun c => c = ' ' || c = '\t' || c = '\n' || c = '\r')

/-- Body of a JSON string literal, after the opening quote: decoded
characters plus the remainder after the closing quote. -/
def jsonStringBody : List Char → List Char → Option (List Char × List Char)
  | _, [] => none
  | acc, '"' :: rest => some (acc.reverse, rest)
  | acc, '\\' :: e :: rest =>
    if e = '"' || e = '\\' || e = '/' then jsonStringBody (e :: acc) rest
    else if e = 'n' then jsonStringBody ('\n' :: acc) rest
    else if e = 't' then jsonStringBody ('\t' :: acc) rest
    else if e = 'r' then jsonStringBody ('\r' :: acc) rest
    else if e = 'b' then jsonStringBody ('\x08' :: acc) rest
    else if e = 'f' then jsonStringBody ('\x0c' :: acc) rest
    else none
  | _, ['\\'] => none
  | acc, c :: rest => jsonStringBody (c :: acc) rest

/-- Remaining elements of a JSON array, entered right after a parsed
element; `pv` parses one value, `acc` holds parsed elements reversed. -/
def jsonElems (pv : List Char → Option (JValue × List Char)) :
    ℕ → List JValue → List Char → Option (List JValue × List Char)
  | 0, _, _ => none
  | fuel + 1, acc, s =>
    match jsonWs s with
    | ']' :: rest => some (acc.reverse, rest)
    | ',' :: rest =>
      match pv rest with
      | some (v, rest2) => jsonElems pv fuel (v :: acc) rest2
      | none => none
    | _ => none

/-- One `"key": value` member of a JSON object. -/
def jsonPair (pv : List Char → Option (JValue × List Char)) (s : List Char) :
    Option ((String × JValue) × List Char) :=
  match jsonWs s with
  | '"' :: rest =>
    match jsonStringBody [] rest with
    | some (k, rest2) =>
      match jsonWs rest2 with
      | ':' :: rest3 =>
        match pv rest3 with
        | some (v, rest4) => some ((⟨k⟩, v), rest4)
        | none => none
      | _ => none
    | none => none
  | _ => none

/-- Remaining members of a JSON object, entered right after a parsed
member. -/
def jsonFields (pv : List Char → Option (JValue × List Char)) :
    ℕ → List (String × JValue) → List Char → Option (List (String × JValue) × List Char)
  | 0, _, _ => none
  | fuel + 1, acc, s =>
    match jsonWs s with
    | [] => none
    | c :: rest =>
      if c = cbraceChar then some (acc.reverse, rest)
      else if c = ',' then
        match jsonPair pv rest with
        | some (kv, rest2) => jsonFields pv fuel (kv :: acc) rest2
        | none => none
      else none

/-- One JSON value (returns the remainder of the input). -/
def jsonParseVal : ℕ → List Char → Option (JValue × List Char)
  | 0, _ => none
  | fuel + 1, s =>
    match jsonWs s with
    | [] => none
    | c :: rest =>
      if c = '"' then
        (jsonStringBody [] rest).map (fun p => (JValue.str ⟨p.1⟩, p.2))
      else if c = '[' then
        let r := jsonWs rest
        if r.head? = some ']' then some (.arr [], r.tail)
        else
          match jsonParseVal fuel r with
          | some (v, rest2) =>
            (jsonElems (jsonParseVal fuel) fuel [v] rest2).map
              (fun p => (JValue.arr p.1, p.2))
          | none => none
      else if c = obraceChar then
        let r := jsonWs rest
        if r.head? = some cbraceChar then some (.obj [], r.tail)
        else
          match jsonPair (jsonParseVal fuel) r with
          | some (kv, rest2) =>
            (jsonFields (jsonParseVal fuel) fuel [kv] rest2).map
              (fun p => (JValue.obj p.1, p.2))
          | none => none
      else if c = 't' then
        if isPrefixL "rue".data rest then some (.bool true, rest.drop 3) else none
      else if c = 'f' then
        if isPrefixL "alse".data rest then some (.bool false, rest.drop 4) else none
      else if c = 'n' then
        if isPrefixL "ull".data rest then some (.null, rest.drop 3) else none
      else
        let neg := c = '-'
        let ds := if neg then rest else c :: rest
        let digits := ds.takeWhile pyIsDigit
        let rest2 := ds.dropWhile pyIsDigit
        if digits.isEmpty then none
        else if rest2.head? = some '.' || rest2.head? = some 'e' || rest2.head? = some 'E'
        then none
        else
          let n : ℤ := digits.foldl (fun a d => a * 10 + ((d.toNat : ℤ) - 48)) 0
          some (.int (if neg then -n else n), rest2)

/-- Python `json.loads` on a character list: one value plus nothing but
trailing whitespace; `none` models `json.JSONDecodeError`. -/
def jsonLoads (s : List Char) : Option JValue :=
  match jsonParseVal (s.length + 1) s with
  | some (v, rest) => if (jsonWs rest).isEmpty then some v else none
  | none => none

/-! ### `retry_handler.py`: exceptions

One inductive covers every exception class the retry handler inspects:
the module classes (`TimeoutError`, `RateLimitError`, `ServerError`,
`ClientError`, `AuthenticationError`), the OpenAI SDK classes it probes
via `isinstance` (`APITimeoutError`, `RateLimitError`, `APIStatusError`,
`AuthenticationError` — the latter three are `APIStatusError`s with
status codes 429 resp. 401), builtin `ConnectionError`/`OSError`, and a
`generic` constructor for every other exception (carrying its class name).
Each constructor carries the exception message so that message
(non-)propagation can be stated. -/
inductive PyExc where
  | timeout (msg : String) (retryAfter : Option ℤ)
  | rateLimit (msg : String) (retryAfter : Option ℤ)
  | serverError (msg : String) (retryAfter : Option ℤ)
  | authentication (msg : String)
  | clientError (msg : String) (statusCode : ℤ)
  | apiTimeout (msg : String)
  | openaiRateLimit (msg : String) (retryAfterHeader : Option String)
  | openaiAuth (msg : String)
  | apiStatusError (msg : String) (statusCode : ℤ) (retryAfterHeader : Option String)
  | connectionOsError (msg : String)
  | generic (typeName : String) (msg : String)
  deriving DecidableEq, Repr

namespace PyExc

/-- `type(error).__name__` (the OpenAI rate-limit and auth classes are both
named like the module-level ones). -/
def typeName : PyExc → String
  | .timeout _ _ => "TimeoutError"
  | .rateLimit _ _ => "RateLimitError"
  | .serverError _ _ => "ServerError"
  | .authentication _ => "AuthenticationError"
  | .clientError _ _ => "ClientError"
  | .apiTimeout _ => "APITimeoutError"
  | .openaiRateLimit _ _ => "RateLimitError"
  | .openaiAuth _ => "AuthenticationError"
  | .apiStatusError _ _ _ => "APIStatusError"
  | .connectionOsError _ => "OSError"
  | .generic n _ => n

/-- `str(error)`. -/
def msg : PyExc → String
  | .timeout m _ | .rateLimit m _ | .serverError m _ | .authentication m
  | .clientError m _ | .apiTimeout m | .openaiRateLimit m _ | .openaiAuth m
  | .apiStatusError m _ _ | .connectionOsError m | .generic _ m => m

/-- The same exception with its message replaced (all other attributes
kept). -/
def withMsg (m : String) : PyExc → PyExc
  | .timeout _ r => .timeout m r
  | .rateLimit _ r => .rateLimit m r
  | .serverError _ r => .serverError m r
  | .authentication _ => .authentication m
  | .clientError _ s => .clientError m s
  | .apiTimeout _ => .apiTimeout m
  | .openaiRateLimit _ h => .openaiRateLimit m h
  | .openaiAuth _ => .openaiAuth m
  | .apiStatusError _ s h => .apiStatusError m s h
  | .connectionOsError _ => .connectionOsError m
  | .generic n _ => .generic n m

end PyExc

/-! ### `retry_handler.py`: `RetryHandler` -/

/-- `RetryHandler.__init__` configuration (floats as exact rationals). -/
structure RetryHandler where
  max_attempts : ℕ
  base_delay : ℚ
  max_delay : ℚ
  exponential_base : ℚ
  deriving DecidableEq, Repr

namespace RetryHandler

/-- `RetryHandler.calculate_delay`: server-specified `retry_after` (when
positive) capped at `max_delay`, else exponential backoff
`base_delay * exponential_base ^ attempt` capped at `max_delay`. -/
def calculate_delay (h : RetryHandler) (attempt : ℕ) (retryAfter : Option ℤ) : ℚ :=
  match retryAfter with
  | some r =>
    if r > 0 then min (r : ℚ) h.max_delay
    else min (h.base_delay * h.exponential_base ^ attempt) h.max_delay
  | none => min (h.base_delay * h.exponential_base ^ attempt) h.max_delay

/-- `isinstance(error, APIStatusError)` for the OpenAI class hierarchy
(the SDK rate-limit and auth errors are status errors too). -/
def isAPIStatusError : PyExc → Bool
  | .openaiRateLimit _ _ | .openaiAuth _ | .apiStatusError _ _ _ => true
  | _ => false

/-- `status_code` of an OpenAI `APIStatusError` (429 for the rate-limit
subclass, 401 for the auth subclass). -/
def apiStatusCode : PyExc → ℤ
  | .openaiRateLimit _ _ => 429
  | .openaiAuth _ => 401
  | .apiStatusError _ s _ => s
  | _ => 0

/-- `retry-after` response header of an OpenAI `APIStatusError`. -/
def apiRetryHeader : PyExc → Option String
  | .openaiRateLimit _ h => h
  | .apiStatusError _ _ h => h
  | _ => none

/-- `RetryHandler.should_retry`: retryable are the module retryable
classes, the SDK timeout and rate-limit classes, and SDK status errors
with a 5xx or 429 status; everything else is not. -/
def should_retry : PyExc → Bool
  | .timeout _ _ | .rateLimit _ _ | .serverError _ _ => true
  | .apiTimeout _ => true
  | .openaiRateLimit _ _ => true
  | e =>
    if isAPIStatusError e then
      if 500 ≤ apiStatusCode e ∧ apiStatusCode e < 600 then true
      else if apiStatusCode e = 429 then true
      else false
    else false

/-- `RetryHandler.get_retry_after`: the `retry_after` attribute of a module
retryable error, else the parsed `retry-after` header of an SDK status
error (an unparsable or empty header yields `None`). -/
def get_retry_after (e : PyExc) : Option ℤ :=
  match e with
  | .timeout _ (some r) | .rateLimit _ (some r) | .serverError _ (some r) => some r
  | _ =>
    if isAPIStatusError e then
      match apiRetryHeader e with
      | some hd => if hd ≠ "" then pyIntOfString hd else none
      | none => none
    else none

/-- Observable outcome of `RetryHandler.execute`: the returned value or
raised exception, the number of times the wrapped function was called,
and the sequence of `time.sleep` delays performed. -/
structure ExecTrace (α : Type) where
  result : Except PyExc α
  calls : ℕ
  sleeps : List ℚ
  deriving Repr

/-- The `for attempt in range(max_attempts)` loop of `RetryHandler.execute`.
`fn i` is the outcome of the `i`-th call of the wrapped function (0-based);
`fuel` is the number of loop iterations left, `attempt` the current index,
`lastError` mirrors the `last_error` local.  When the loop ends without
returning, the trailing `raise last_error` / `raise RuntimeError` runs. -/
def executeGo (h : RetryHandler) (fn : ℕ → Except PyExc α) :
    ℕ → ℕ → Option PyExc → List ℚ → ExecTrace α
  | 0, attempt, lastError, sleeps =>
    { result := .error ((lastError.getD (.generic "RuntimeError" "Unexpected state in retry handler"))),
      calls := attempt, sleeps := sleeps }
  | fuel + 1, attempt, _, sleeps =>
    match fn attempt with
    | .ok v => { result := .ok v, calls := attempt + 1, sleeps := sleeps }
    | .error e =>
      if ¬ should_retry e then
        { result := .error e, calls := attempt + 1, sleeps := sleeps }
      else if attempt + 1 ≥ h.max_attempts then
        { result := .error e, calls := attempt + 1, sleeps := sleeps }
      else
        executeGo h fn fuel (attempt + 1) (some e)
          (sleeps ++ [h.calculate_delay attempt (get_retry_after e)])

/-- `RetryHandler.execute`. -/
def execute (h : RetryHandler) (fn : ℕ → Except PyExc α) : ExecTrace α :=
  executeGo h fn h.max_attempts 0 none []

end RetryHandler

/-! ### `retry_handler.py`: `AIErrorResponse` -/

/-- The `AIErrorResponse` dataclass. -/
structure AIErrorResponse where
  success : Bool := false
  error_type : String := "unknown"
  user_message : String := "An unexpected error occurred. Please try again later."
  technical_details : Option String := none
  retry_after : Option ℤ := none
  deriving DecidableEq, Repr

namespace AIErrorResponse

/-- `AIErrorResponse.from_exception`: maps each exception class to a fixed
category and a templated user message; `technical_details` is the only
field built from the exception text. -/
def from_exception (e : PyExc) : AIErrorResponse :=
  let technicalDetails := e.typeName ++ ": " ++ e.msg
  match e with
  | .timeout _ retryAfter =>
    { error_type := "timeout",
      user_message := "The AI service is taking too long to respond. Please try again.",
      technical_details := some technicalDetails,
      retry_after := retryAfter }
  | .rateLimit _ retryAfter =>
    let retryMsg :=
      match retryAfter with
      | some r =>
        if r ≠ 0 then " Please wait " ++ toString r ++ " seconds before trying again."
        else ""
      | none => ""
    { error_type := "rate_limit",
      user_message := "The AI service is currently busy." ++ retryMsg,
      technical_details := some technicalDetails,
      retry_after := retryAfter }
  | .serverError _ retryAfter =>
    { error_type := "api",
      user_message := "The AI service is temporarily unavailable. Please try again later.",
      technical_details := some technicalDetails,
      retry_after := retryAfter }
  | .authentication _ =>
    { error_type := "config",
      user_message := "AI service configuration error. Please contact support.",
      technical_details := some technicalDetails }
  | .clientError _ _ =>
    { error_type := "api",
      user_message := "There was a problem with the request. Please try again.",
      technical_details := some technicalDetails }
  | .apiTimeout _ =>
    { error_type := "timeout",
      user_message := "The AI service is taking too long to respond. Please try again.",
      technical_details := some technicalDetails }
  | .openaiRateLimit _ header =>
    let retryAfter : Option ℤ :=
      match header with
      | some hd => if hd ≠ "" then pyIntOfString hd else none
      | none => none
    let retryMsg :=
      match retryAfter with
      | some r =>
        if r ≠ 0 then " Please wait " ++ toString r ++ " seconds before trying again."
        else ""
      | none => ""
    { error_type := "rate_limit",
      user_message := "The AI service is currently busy." ++ retryMsg,
      technical_details := some technicalDetails,
      retry_after := retryAfter }
  | .openaiAuth _ =>
    { error_type := "config",
      user_message := "AI service configuration error. Please contact support.",
      technical_details := some technicalDetails }
  | .apiStatusError _ statusCode _ =>
    if 500 ≤ statusCode ∧ statusCode < 600 then
      { error_type := "api",
        user_message := "The AI service is temporarily unavailable. Please try again later.",
        technical_details := some technicalDetails }
    else
      { error_type := "api",
        user_message := "There was a problem with the AI service. Please try again.",
        technical_details := some technicalDetails }
  | .connectionOsError _ =>
    { error_type := "network",
      user_message := "Unable to connect to the AI service. Please check your connection.",
      technical_details := some technicalDetails }
  | .generic _ _ =>
    { error_type := "unknown",
      user_message := "An unexpected error occurred. Please try again later.",
      technical_details := some technicalDetails }

/-- `AIErrorResponse.to_dict`: the caller-visible dictionary —
`success`, `error_type`, `user_message`, plus `retry_after` when present;
`technical_details` is never included. -/
def to_dict (r : AIErrorResponse) : List (String × JValue) :=
  [("success", .bool r.success),
   ("error_type", .str r.error_type),
   ("user_message", .str r.user_message)]
  ++ (match r.retry_after with
      | some n => [("retry_after", .int n)]
      | none => [])

end AIErrorResponse

/-! ### Claims C3, C4, C5, C9 -/

namespace RetryHandler

/-- Unfolding of one loop iteration when the call succeeds. -/
theorem executeGo_ok {α : Type} (h : RetryHandler) (fn : ℕ → Except PyExc α)
    (fuel attempt : ℕ) (le : Option PyExc) (sleeps : List ℚ) (v : α)
    (hv : fn attempt = .ok v) :
    executeGo h fn (fuel + 1) attempt le sleeps = ⟨.ok v, attempt + 1, sleeps⟩ := by
  simp [executeGo, hv]

/-- Unfolding of one loop iteration when the call raises a non-retryable
error. -/
theorem executeGo_err_stop {α : Type} (h : RetryHandler) (fn : ℕ → Except PyExc α)
    (fuel attempt : ℕ) (le : Option PyExc) (sleeps : List ℚ) (e : PyExc)
    (he : fn attempt = .error e) (hre : should_retry e = false) :
    executeGo h fn (fuel + 1) attempt le sleeps = ⟨.error e, attempt + 1, sleeps⟩ := by
  simp [executeGo, he, hre]

/-- Unfolding of one loop iteration when the call raises a retryable error
on the final attempt. -/
theorem executeGo_err_last {α : Type} (h : RetryHandler) (fn : ℕ → Except PyExc α)
    (fuel attempt : ℕ) (le : Option PyExc) (sleeps : List ℚ) (e : PyExc)
    (he : fn attempt = .error e) (hre : should_retry e = true)
    (hl : attempt + 1 ≥ h.max_attempts) :
    executeGo h fn (fuel + 1) attempt le sleeps = ⟨.error e, attempt + 1, sleeps⟩ := by
  simp [executeGo, he, hre, hl]

/-- Unfolding of one loop iteration when the call raises a retryable error
with attempts remaining: sleep, then iterate. -/
theorem executeGo_err_step {α : Type} (h : RetryHandler) (fn : ℕ → Except PyExc α)
    (fuel attempt : ℕ) (le : Option PyExc) (sleeps : List ℚ) (e : PyExc)
    (he : fn attempt = .error e) (hre : should_retry e = true)
    (hl : ¬ attempt + 1 ≥ h.max_attempts) :
    executeGo h fn (fuel + 1) attempt le sleeps
      = executeGo h fn fuel (attempt + 1) (some e)
          (sleeps ++ [h.calculate_delay attempt (get_retry_after e)]) := by
  simp [executeGo, he, hre, hl]

/-- Auxiliary invariant for `executeGo`: if the next `k` calls fail with
retryable errors and the call after them succeeds, all within the
remaining fuel, the loop returns that success after exactly `k + 1`
further calls. -/
theorem executeGo_success {α : Type} (h : RetryHandler) (fn : ℕ → Except PyExc α) (v : α) :
    ∀ (k fuel attempt : ℕ) (le : Option PyExc) (sleeps : List ℚ),
      k < fuel →
      (∀ i, i < k → ∃ e, fn (attempt + i) = .error e ∧ should_retry e = true) →
      fn (attempt + k) = .ok v →
      attempt + fuel ≤ h.max_attempts →
      (executeGo h fn fuel attempt le sleeps).result = .ok v ∧
      (executeGo h fn fuel attempt le sleeps).calls = attempt + k + 1 := by
  intro k
  induction k with
  | zero =>
    intro fuel attempt le sleeps hk _ hsucc _
    obtain ⟨f, rfl⟩ : ∃ f, fuel = f + 1 := ⟨fuel - 1, by omega⟩
    rw [show attempt + 0 = attempt by omega] at hsucc
    rw [executeGo_ok h fn f attempt le sleeps v hsucc]
    exact ⟨rfl, rfl⟩
  | succ k ih =>
    intro fuel attempt le sleeps hk hfail hsucc hle
    obtain ⟨f, rfl⟩ : ∃ f, fuel = f + 1 := ⟨fuel - 1, by omega⟩
    obtain ⟨e, he, hre⟩ := hfail 0 (by omega)
    rw [show attempt + 0 = attempt by omega] at he
    have hnotlast : ¬ attempt + 1 ≥ h.max_attempts := by omega
    have step := ih f (attempt + 1) (some e)
      (sleeps ++ [h.calculate_delay attempt (get_retry_after e)])
      (by omega)
      (fun i hi => by
        obtain ⟨e2, he2, hre2⟩ := hfail (i + 1) (by omega)
        exact ⟨e2, by rw [show attempt + 1 + i = attempt + (i + 1) by omega]; exact he2, hre2⟩)
      (by rw [show attempt + 1 + k = attempt + (k + 1) by omega]; exact hsucc)
      (by omega)
    rw [executeGo_err_step h fn f attempt le sleeps e he hre hnotlast]
    exact ⟨step.1, by rw [step.2]; omega⟩

/-- Auxiliary invariant for `executeGo`: if every remaining call fails with
a retryable error, the loop performs every remaining attempt and raises
the error of the final call unchanged. -/
theorem executeGo_allFail {α : Type} (h : RetryHandler) (fn : ℕ → Except PyExc α) :
    ∀ (fuel attempt : ℕ) (le : Option PyExc) (sleeps : List ℚ),
      1 ≤ fuel →
      attempt + fuel = h.max_attempts →
      (∀ i, attempt ≤ i → i < h.max_attempts → ∃ e, fn i = .error e ∧ should_retry e = true) →
      ∃ e, fn (h.max_attempts - 1) = .error e ∧
        (executeGo h fn fuel attempt le sleeps).result = .error e ∧
        (executeGo h fn fuel attempt le sleeps).calls = h.max_attempts := by
  intro fuel
  induction fuel with
  | zero => omega
  | succ f ih =>
    intro attempt le sleeps _ htot hfail
    obtain ⟨e, he, hre⟩ := hfail attempt (by omega) (by omega)
    by_cases hf : f = 0
    · subst hf
      have hatt : attempt = h.max_attempts - 1 := by omega
      have hlast : attempt + 1 ≥ h.max_attempts := by omega
      refine ⟨e, by rw [← hatt]; exact he, ?_⟩
      rw [executeGo_err_last h fn 0 attempt le sleeps e he hre hlast]
      exact ⟨rfl, by show attempt + 1 = h.max_attempts; omega⟩
    · have hnotlast : ¬ attempt + 1 ≥ h.max_attempts := by omega
      obtain ⟨e2, he2, hr2, hc2⟩ := ih (attempt + 1) (some e)
        (sleeps ++ [h.calculate_delay attempt (get_retry_after e)])
        (by omega) (by omega)
        (fun i hi hi2 => hfail i (by omega) hi2)
      rw [executeGo_err_step h fn f attempt le sleeps e he hre hnotlast]
      exact ⟨e2, he2, hr2, hc2⟩

end RetryHandler

/-- C3: for every wrapped function and `max_attempts ≥ 1`, failing with a
retryable error on the first `k` calls (`k < max_attempts`) and then
succeeding makes `RetryHandler.execute` call the function exactly `k + 1`
times and return the success value; failing with a retryable error on
every call makes it call the function exactly `max_attempts` times and
re-raise the last error unchanged. -/
theorem retry_handler_execute_retry_bound {α : Type} (h : RetryHandler)
    (fn : ℕ → Except PyExc α) (hmax : 1 ≤ h.max_attempts) :
    (∀ (k : ℕ) (v : α), k < h.max_attempts →
        (∀ i, i < k → ∃ e, fn i = .error e ∧ RetryHandler.should_retry e = true) →
        fn k = .ok v →
        (h.execute fn).result = .ok v ∧ (h.execute fn).calls = k + 1) ∧
    ((∀ i, i < h.max_attempts → ∃ e, fn i = .error e ∧ RetryHandler.should_retry e = true) →
        ∃ e, fn (h.max_attempts - 1) = .error e ∧
          (h.execute fn).result = .error e ∧
          (h.execute fn).calls = h.max_attempts) := by
  constructor
  · intro k v hk hfail hsucc
    have := RetryHandler.executeGo_success h fn v k h.max_attempts 0 none []
      hk (fun i hi => by simpa using hfail i hi) (by simpa using hsucc) (by omega)
    simpa [RetryHandler.execute] using this
  · intro hfail
    have := RetryHandler.executeGo_allFail h fn h.max_attempts 0 none []
      (by omega) (by omega) (fun i _ hi2 => hfail i hi2)
    simpa [RetryHandler.execute] using this

/-- Wrapped-function behaviour used by the C3 witness: one retryable
failure, then success. -/
def fnFailThenOk : ℕ → Except PyExc ℕ :=
  fun i => if i = 0 then .error (.timeout "read timed out" none) else .ok 7

/-- Witness for C3 at a concrete handler and function: with
`max_attempts = 3` and one retryable timeout before success, `execute`
calls the function twice and returns the success value. -/
theorem retry_handler_execute_retry_bound_witness :
    1 ≤ (RetryHandler.mk 3 1 30 2).max_attempts ∧
    ((RetryHandler.mk 3 1 30 2).execute fnFailThenOk).result = .ok 7 ∧
    ((RetryHandler.mk 3 1 30 2).execute fnFailThenOk).calls = 2 := by
  refine ⟨by decide, ?_⟩
  have := (retry_handler_execute_retry_bound (RetryHandler.mk 3 1 30 2) fnFailThenOk
    (by decide)).1 1 7 (by decide)
    (fun i hi => by
      have : i = 0 := by omega
      subst this
      exact ⟨.timeout "read timed out" none, rfl, rfl⟩)
    rfl
  simpa using this

/-- C5: non-retryable errors short-circuit — the module `ClientError` and
`AuthenticationError` classes are classified non-retryable, and for every
wrapped function whose first call raises an error with
`should_retry = false`, `execute` calls it exactly once, re-raises that
error, and never sleeps. -/
theorem retry_handler_nonretryable_short_circuit :
    (∀ (m : String) (s : ℤ), RetryHandler.should_retry (.clientError m s) = false) ∧
    (∀ m : String, RetryHandler.should_retry (.authentication m) = false) ∧
    (∀ {α : Type} (h : RetryHandler) (fn : ℕ → Except PyExc α) (e : PyExc),
      1 ≤ h.max_attempts → fn 0 = .error e → RetryHandler.should_retry e = false →
      (h.execute fn).result = .error e ∧ (h.execute fn).calls = 1 ∧
        (h.execute fn).sleeps = []) := by
  refine ⟨fun m s => rfl, fun m => rfl, ?_⟩
  intro α h fn e hmax hfn hnr
  obtain ⟨f, hf⟩ : ∃ f, h.max_attempts = f + 1 := ⟨h.max_attempts - 1, by omega⟩
  simp [RetryHandler.execute, hf, RetryHandler.executeGo, hfn, hnr]

/-- Wrapped-function behaviour used by the C5 witness: an authentication
error on every call. -/
def fnAuthFail : ℕ → Except PyExc ℕ :=
  fun _ => .error (.authentication "invalid api key")

/-- Witness for C5 at a concrete handler and function: an authentication
error is raised after exactly one call with no sleeps, despite
`max_attempts = 3`. -/
theorem retry_handler_nonretryable_short_circuit_witness :
    1 ≤ (RetryHandler.mk 3 1 30 2).max_attempts ∧
    ((RetryHandler.mk 3 1 30 2).execute fnAuthFail).result
        = .error (.authentication "invalid api key") ∧
    ((RetryHandler.mk 3 1 30 2).execute fnAuthFail).calls = 1 ∧
    ((RetryHandler.mk 3 1 30 2).execute fnAuthFail).sleeps = [] :=
  ⟨by decide,
   retry_handler_nonretryable_short_circuit.2.2 (RetryHandler.mk 3 1 30 2) fnAuthFail
     (.authentication "invalid api key") (by decide) rfl rfl⟩

/-- Counterexample to C4 as stated: with the default configuration
(`base_delay = 1`, `max_delay = 30`, `exponential_base = 2`) and a supplied
`retry_after = 0`, `calculate_delay(3, retry_after=0)` is `8` (the
exponential formula), not `min(0, max_delay) = 0` as the claim requires
for every supplied `retry_after`. -/
theorem calculate_delay_zero_retry_after_cex :
    (RetryHandler.mk 3 1 30 2).calculate_delay 3 (some 0) = 8 ∧
    (RetryHandler.mk 3 1 30 2).calculate_delay 3 (some 0)
      ≠ min ((0 : ℤ) : ℚ) (RetryHandler.mk 3 1 30 2).max_delay := by
  constructor <;> norm_num [RetryHandler.calculate_delay]

/-- C4 (amended): with no `retry_after`, `calculate_delay(attempt)` equals
`min(base_delay * exponential_base ^ attempt, max_delay)`; a supplied
`retry_after > 0` yields `min(retry_after, max_delay)` regardless of
`attempt`; a supplied `retry_after ≤ 0` (including `0`) is ignored and the
exponential formula applies. -/
theorem calculate_delay_formula (h : RetryHandler) (attempt : ℕ) (r : ℤ) :
    h.calculate_delay attempt none
        = min (h.base_delay * h.exponential_base ^ attempt) h.max_delay ∧
    (0 < r → h.calculate_delay attempt (some r) = min (r : ℚ) h.max_delay) ∧
    (r ≤ 0 → h.calculate_delay attempt (some r)
        = min (h.base_delay * h.exponential_base ^ attempt) h.max_delay) := by
  refine ⟨rfl, fun hr => ?_, fun hr => ?_⟩
  · simp [RetryHandler.calculate_delay, hr]
  · simp [RetryHandler.calculate_delay, show ¬ r > 0 by omega]

/-- Witness for C4 (amended) at concrete inputs: attempt 2 with
`retry_after = 100` is capped at `max_delay`, and `retry_after = 0` falls
back to the exponential value 4. -/
theorem calculate_delay_formula_witness :
    ((0 : ℤ) < 100 ∧
      (RetryHandler.mk 3 1 30 2).calculate_delay 2 (some 100)
        = min ((100 : ℤ) : ℚ) (RetryHandler.mk 3 1 30 2).max_delay) ∧
    ((0 : ℤ) ≤ 0 ∧
      (RetryHandler.mk 3 1 30 2).calculate_delay 2 (some 0)
        = min ((RetryHandler.mk 3 1 30 2).base_delay
            * (RetryHandler.mk 3 1 30 2).exponential_base ^ 2)
            (RetryHandler.mk 3 1 30 2).max_delay) :=
  ⟨⟨by norm_num, (calculate_delay_formula (RetryHandler.mk 3 1 30 2) 2 100).2.1 (by norm_num)⟩,
   ⟨by norm_num, (calculate_delay_formula (RetryHandler.mk 3 1 30 2) 2 0).2.2 (by norm_num)⟩⟩

/-- Helper for C9: the caller-visible dictionary never carries a
`technical_details` key, whatever the response contents. -/
theorem to_dict_no_technical_details (r : AIErrorResponse) :
    "technical_details" ∉ (r.to_dict).map Prod.fst := by
  rcases r with ⟨s, et, um, td, ra⟩
  cases ra <;> simp [AIErrorResponse.to_dict]

/-- C9: `AIErrorResponse.from_exception` is total with `error_type` drawn
from the fixed category set, and the caller-visible dictionary — the
entire `to_dict` output, including `user_message` — is unchanged when the
exception message changes (same class and attributes); `technical_details`
never appears among the dictionary keys. -/
theorem ai_error_response_message_noninterference (e : PyExc) (m : String) :
    (AIErrorResponse.from_exception e).error_type
        ∈ ["timeout", "rate_limit", "api", "config", "network", "response", "unknown"] ∧
    (AIErrorResponse.from_exception (e.withMsg m)).to_dict
        = (AIErrorResponse.from_exception e).to_dict ∧
    "technical_details"
        ∉ ((AIErrorResponse.from_exception e).to_dict).map Prod.fst := by
  refine ⟨?_, ?_, to_dict_no_technical_details _⟩
  · cases e with
    | apiStatusError m s hd =>
        by_cases h5 : 500 ≤ s ∧ s < 600 <;> simp [AIErrorResponse.from_exception, h5]
    | _ => simp [AIErrorResponse.from_exception]
  · cases e with
    | apiStatusError m2 s hd =>
        by_cases h5 : 500 ≤ s ∧ s < 600 <;>
          simp [AIErrorResponse.from_exception, PyExc.withMsg, AIErrorResponse.to_dict, h5]
    | _ => simp [AIErrorResponse.from_exception, PyExc.withMsg, AIErrorResponse.to_dict]

/-! ### `agent_orchestrator.py`: quiz generation -/

/-- Agent prompt configuration (`app/models/agent_prompt.py`); only the
`system_prompt` field is read by the functions modelled here. -/
structure AgentPrompt where
  system_prompt : String
  deriving DecidableEq, Repr

/-- One `{"role": ..., "content": ...}` chat message. -/
structure ChatMessage where
  role : String
  content : String
  deriving DecidableEq, Repr

/-- Python `.strip()` applied to a dict value: `AttributeError` (modelled
as a `generic` exception) unless the value is a string. -/
def stripStrValue : JValue → Except PyExc String
  | .str s => .ok (pyStrip s)
  | _ => .error (.generic "AttributeError" "object has no attribute strip")

/-- A validated quiz question as returned by `_validate_quiz_question`
(`id` is passed through unvalidated, hence a `JValue`). -/
structure QuizQuestion where
  id : JValue
  question : String
  options : List String
  correct_index : ℤ
  explanation : String
  deriving Repr

/-- The raw `correct_index` of a question dict:
`question_data.get("correct_index", question_data.get("correctIndex", 0))`. -/
def rawCorrectIndex (d : List (String × JValue)) : JValue :=
  (jget d "correct_index").getD ((jget d "correctIndex").getD (.int 0))

/-- The `correct_index` value `_validate_quiz_question` works with:
`int(...)` coercion of the raw value, with coercion failures
(`ValueError`/`TypeError`) caught and replaced by `0`. -/
def computedCorrectIndex (d : List (String × JValue)) : ℤ :=
  (pyIntOfJValue (rawCorrectIndex d)).getD 0

/-- `AgentOrchestrator._validate_quiz_question`: validates and normalizes
one raw question dict; `.ok none` models a rejection (`return None`),
`.error` a raised exception. -/
def validate_quiz_question (questionData : JValue) (index : ℕ) :
    Except PyExc (Option QuizQuestion) :=
  match questionData with
  | .obj d =>
    match stripStrValue ((jget d "question").getD (.str "")) with
    | .error e => .error e
    | .ok questionText =>
      if questionText = "" then .ok none
      else
        match (jget d "options").getD (.arr []) with
        | .arr opts =>
          if opts.length ≠ 4 then .ok none
          else
            let options := opts.map (fun o => pyStrip (pyStr o))
            if options.any (fun o => o = "") then .ok none
            else if options.dedup.length ≠ 4 then .ok none
            else
              let correctIndex := computedCorrectIndex d
              if ¬ (0 ≤ correctIndex ∧ correctIndex < 4) then .ok none
              else
                match stripStrValue ((jget d "explanation").getD (.str "")) with
                | .error e => .error e
                | .ok explanationRaw =>
                  let explanation :=
                    if explanationRaw = "" then "No explanation provided." else explanationRaw
                  .ok (some
                    { id := (jget d "id").getD (.str ("q" ++ toString index)),
                      question := questionText,
                      options := options,
                      correct_index := correctIndex,
                      explanation := explanation })
        | _ => .ok none
  | _ => .ok none

/-- The markdown-fence extraction of `_parse_quiz_response` /
`_parse_content_response` (`re.search` of the lazy fenced-block pattern,
applied when the stripped text starts with a fence; the capture is then
stripped).  When no closing fence exists the text is left unchanged. -/
def fenceExtract (s : List Char) : List Char :=
  if isPrefixL "```".data s then
    let rest := s.drop 3
    let rest := if isPrefixL "json".data rest then rest.drop 4 else rest
    match findSubL "```".data rest with
    | some i => pyStripL (rest.take i)
    | none => s
  else s

/-- The depth-counting scan of `_parse_quiz_response` /
`_parse_content_response`: length of the shortest prefix of `s` whose
`op`/`cl` tokens balance (naive counting, exactly as in the source),
`none` when they never do. -/
def bracketScan (op cl : Char) : List Char → ℤ → ℕ → Option ℕ
  | [], _, _ => none
  | c :: rest, depth, pos =>
    if c = op then bracketScan op cl rest (depth + 1) (pos + 1)
    else if c = cl then
      if depth - 1 = 0 then some (pos + 1)
      else bracketScan op cl rest (depth - 1) (pos + 1)
    else bracketScan op cl rest depth (pos + 1)

/-- When the text does not already start with `op`, slice out the first
balanced `op`...`cl` span (the text is left unchanged when no balanced
span exists). -/
def sliceBalanced (op cl : Char) (s : List Char) : List Char :=
  if s.head? = some op then s
  else
    match List.findIdx? (· = op) s with
    | none => s
    | some start =>
      let tail := s.drop start
      match bracketScan op cl tail 0 0 with
      | some len => tail.take len
      | none => s

/-- The `for i, q in enumerate(questions_data)` loop of
`_parse_quiz_response`: validate each element (index `i + 1`), keep the
accepted ones; a validation exception propagates. -/
def validateAll : List JValue → ℕ → Except PyExc (List QuizQuestion)
  | [], _ => .ok []
  | q :: qs, i =>
    match validate_quiz_question q (i + 1) with
    | .error e => .error e
    | .ok none => validateAll qs (i + 1)
    | .ok (some v) => (validateAll qs (i + 1)).map (fun vs => v :: vs)

/-- `AgentOrchestrator._parse_quiz_response`: strip, unfence, slice the
first balanced array, decode, validate each element.  Decode failures and
non-array payloads yield `[]`; fewer valid questions than expected are
only logged — the validated list is returned either way. -/
def parse_quiz_response (response : String) (expectedCount : ℕ) :
    Except PyExc (List QuizQuestion) :=
  if response = "" then .ok []
  else
    let jsonStr := pyStripL response.data
    let jsonStr := fenceExtract jsonStr
    let jsonStr := sliceBalanced '[' ']' jsonStr
    match jsonLoads jsonStr with
    | none => .ok []
    | some (.arr qs) => validateAll qs 0
    | some _ => .ok []

/-- The JSON format instruction appended to the quiz system prompt. -/
def quizJsonFormatInstruction : String :=
  "\n\nIMPORTANT: You MUST respond with ONLY a valid JSON array. Do not include any text before or after the JSON.\n\nThe response must be a JSON array of question objects with this exact structure:\n[\n  \x7b\n    \"id\": \"q1\",\n    \"question\": \"Your question text here?\",\n    \"options\": [\"Option A\", \"Option B\", \"Option C\", \"Option D\"],\n    \"correct_index\": 0,\n    \"explanation\": \"Explanation of why the correct answer is correct.\"\n  \x7d\n]\n\nRules:\n- Each question MUST have exactly 4 options\n- correct_index MUST be 0, 1, 2, or 3 (the index of the correct option)\n- All 4 options MUST be distinct (no duplicate options)\n- Each question MUST have a non-empty explanation\n- The id should be \"q1\", \"q2\", etc."

/-- The stricter correction appended on retry after an invalid response. -/
def quizStrictAddition : String :=
  "\n\nCRITICAL: Your previous response was not valid JSON. You MUST respond with ONLY the JSON array, starting with [ and ending with ]. No markdown code blocks, no explanations, just the raw JSON array."

/-- Python `x or default` for an optional string (`None` and `""` are
falsy). -/
def pyOrDefault (o : Option String) (dflt : String) : String :=
  match o with
  | some t => if t ≠ "" then t else dflt
  | none => dflt

/-- `AgentOrchestrator._build_quiz_messages`. -/
def build_quiz_messages (agent : AgentPrompt) (topic content : Option String)
    (questionCount : ℕ) (strictFormat : Bool) : List ChatMessage :=
  let jsonFormatInstruction :=
    if strictFormat then quizJsonFormatInstruction ++ quizStrictAddition
    else quizJsonFormatInstruction
  let systemContent := agent.system_prompt ++ jsonFormatInstruction
  let userParts : List String :=
    (match topic with
     | some t => if t ≠ "" then ["Topic: " ++ t] else []
     | none => [])
    ++ (match content with
        | some c => if c ≠ "" then ["Content Summary: " ++ c] else []
        | none => [])
    ++ ["Generate exactly " ++ toString questionCount ++ " multiple-choice questions."]
    ++ (if strictFormat then ["Remember: Respond with ONLY the JSON array, no other text."]
        else [])
  [⟨"system", systemContent⟩, ⟨"user", String.intercalate "\n\n" userParts⟩]

/-- `AgentOrchestrator._generate_fallback_quiz`: the clearly-labeled
placeholder question set. -/
def generate_fallback_quiz (topic : Option String) (questionCount : ℕ) : List QuizQuestion :=
  (List.range questionCount).map (fun i =>
    { id := .str ("q" ++ toString (i + 1)),
      question := "[Fallback] Sample question " ++ toString (i + 1) ++ " about "
        ++ pyOrDefault topic "the content" ++ "?",
      options := ["Option A", "Option B", "Option C", "Option D"],
      correct_index := 0,
      explanation := "[Fallback] This is a placeholder question. The AI service was unavailable." })

/-- The `for attempt in range(max_retries)` loop of `generate_quiz`.
`chat attempt messages` is the outcome of the retry-wrapped
`chat_completion` on that attempt (`Except.error` models an exception
escaping the retry handler — that also covers exceptions raised while
parsing/validating, which the same `except` block catches).  `fuel` is
the number of loop iterations left; falling off the loop returns the
placeholder set. -/
def generateQuizGo (chat : ℕ → List ChatMessage → Except PyExc String)
    (agent : AgentPrompt) (topic content : Option String)
    (questionCount maxRetries : ℕ) :
    ℕ → ℕ → List ChatMessage → List QuizQuestion
  | 0, _, _ => generate_fallback_quiz topic questionCount
  | fuel + 1, attempt, messages =>
    match chat attempt messages with
    | .error _ =>
      if attempt + 1 ≥ maxRetries then generate_fallback_quiz topic questionCount
      else generateQuizGo chat agent topic content questionCount maxRetries fuel
        (attempt + 1) messages
    | .ok response =>
      match parse_quiz_response response questionCount with
      | .error _ =>
        if attempt + 1 ≥ maxRetries then generate_fallback_quiz topic questionCount
        else generateQuizGo chat agent topic content questionCount maxRetries fuel
          (attempt + 1) messages
      | .ok questions =>
        if questions.isEmpty then
          if attempt + 1 < maxRetries then
            generateQuizGo chat agent topic content questionCount maxRetries fuel (attempt + 1)
              (build_quiz_messages agent topic content questionCount true)
          else
            generateQuizGo chat agent topic content questionCount maxRetries fuel
              (attempt + 1) messages
        else questions

/-- `AgentOrchestrator.generate_quiz` (`quizAgent = none` models a missing
`QuizAgent`, returning `[]`). -/
def generate_quiz (chat : ℕ → List ChatMessage → Except PyExc String)
    (quizAgent : Option AgentPrompt) (topic content : Option String)
    (questionCount : ℕ) (maxRetries : ℕ := 3) : List QuizQuestion :=
  match quizAgent with
  | none => []
  | some agent =>
    generateQuizGo chat agent topic content questionCount maxRetries maxRetries 0
      (build_quiz_messages agent topic content questionCount false)

/-! ### Claims C1 and C2 -/

/-- Association-list lookup against a freshly consed entry. -/
theorem jget_cons (k k2 : String) (v : JValue) (d : List (String × JValue)) :
    jget ((k, v) :: d) k2 = if k = k2 then some v else jget d k2 := by
  by_cases h : k = k2 <;> simp [jget, List.find?_cons, h]

/-- Helper for C1: `_validate_quiz_question` reads its input dict only
through the `question`, `options`, `explanation` and `id` keys and the
computed `correct_index`. -/
theorem validate_quiz_question_congr (d d2 : List (String × JValue)) (i : ℕ)
    (h1 : jget d "question" = jget d2 "question")
    (h2 : jget d "options" = jget d2 "options")
    (h3 : computedCorrectIndex d = computedCorrectIndex d2)
    (h4 : jget d "explanation" = jget d2 "explanation")
    (h5 : jget d "id" = jget d2 "id") :
    validate_quiz_question (.obj d) i = validate_quiz_question (.obj d2) i := by
  simp only [validate_quiz_question, h1, h2, h3, h4, h5]

/-- C1 (amended): a `correct_index` that coerces to an integer outside
`[0,4)` makes `_validate_quiz_question` reject (it never returns an
accepted question); but a `correct_index` whose `int(...)` coercion fails
(e.g. a non-numeric string) is NOT rejected for that reason — the
question is validated exactly as if `correct_index` were `0`, the same
default used for a missing index. -/
theorem validate_quiz_question_index_handling (d : List (String × JValue)) (i : ℕ) :
    (∀ n : ℤ, pyIntOfJValue (rawCorrectIndex d) = some n → (n < 0 ∨ 4 ≤ n) →
      ∀ accepted, validate_quiz_question (.obj d) i ≠ .ok (some accepted)) ∧
    (pyIntOfJValue (rawCorrectIndex d) = none →
      validate_quiz_question (.obj d) i
        = validate_quiz_question (.obj (("correct_index", JValue.int 0) :: d)) i) := by
  constructor
  · intro n hn hrange accepted
    have hci : computedCorrectIndex d = n := by simp [computedCorrectIndex, hn]
    simp only [validate_quiz_question, hci]
    repeat' split
    all_goals simp_all
    all_goals exfalso
    all_goals omega
  · intro hn
    apply validate_quiz_question_congr
    · rw [jget_cons, if_neg (by decide)]
    · rw [jget_cons, if_neg (by decide)]
    · have hr2 : rawCorrectIndex (("correct_index", JValue.int 0) :: d) = JValue.int 0 := by
        simp [rawCorrectIndex, jget_cons]
      have hL : computedCorrectIndex d = 0 := by simp [computedCorrectIndex, hn]
      have hR : computedCorrectIndex (("correct_index", JValue.int 0) :: d) = 0 := by
        simp [computedCorrectIndex, hr2, pyIntOfJValue]
      rw [hL, hR]
    · rw [jget_cons, if_neg (by decide)]
    · rw [jget_cons, if_neg (by decide)]

/-- A raw question dict, valid except that its `correct_index` is the
non-numeric string `"abc"`. -/
def qdNonNumericIndex : List (String × JValue) :=
  [("question", .str "What is the capital of France?"),
   ("options", .arr [.str "Paris", .str "London", .str "Berlin", .str "Madrid"]),
   ("correct_index", .str "abc"),
   ("explanation", .str "Paris is the capital of France.")]

/-- The question `_validate_quiz_question` accepts for
`qdNonNumericIndex`. -/
def qdNonNumericAccepted : QuizQuestion :=
  { id := .str "q1",
    question := "What is the capital of France?",
    options := ["Paris", "London", "Berlin", "Madrid"],
    correct_index := 0,
    explanation := "Paris is the capital of France." }

/-- Counterexample to C1 as stated: an otherwise-valid question whose
`correct_index` is the non-numeric string `"abc"` is NOT rejected —
`_validate_quiz_question` silently accepts it with `correct_index = 0`. -/
theorem validate_quiz_question_nonnumeric_index_cex :
    validate_quiz_question (.obj qdNonNumericIndex) 1 = .ok (some qdNonNumericAccepted) ∧
    validate_quiz_question (.obj qdNonNumericIndex) 1 ≠ .ok none := by
  have heval : validate_quiz_question (.obj qdNonNumericIndex) 1
      = .ok (some qdNonNumericAccepted) := rfl
  refine ⟨heval, ?_⟩
  rw [heval]
  simp

/-- A raw question dict with an integer `correct_index` outside `[0,4)`. -/
def qdOutOfRangeIndex : List (String × JValue) :=
  [("question", .str "What is the capital of France?"),
   ("options", .arr [.str "Paris", .str "London", .str "Berlin", .str "Madrid"]),
   ("correct_index", .int 7),
   ("explanation", .str "Paris is the capital of France.")]

/-- Witness for C1 (amended) at concrete inputs: `correct_index = 7` is
rejected, while the non-numeric `"abc"` validates like an explicit `0`. -/
theorem validate_quiz_question_index_handling_witness :
    (pyIntOfJValue (rawCorrectIndex qdOutOfRangeIndex) = some 7 ∧
      ((7 : ℤ) < 0 ∨ 4 ≤ (7 : ℤ)) ∧
      validate_quiz_question (.obj qdOutOfRangeIndex) 1 ≠ .ok (some qdNonNumericAccepted)) ∧
    (pyIntOfJValue (rawCorrectIndex qdNonNumericIndex) = none ∧
      validate_quiz_question (.obj qdNonNumericIndex) 1
        = validate_quiz_question (.obj (("correct_index", JValue.int 0) :: qdNonNumericIndex)) 1) :=
  ⟨⟨rfl, by norm_num,
    (validate_quiz_question_index_handling qdOutOfRangeIndex 1).1 7 rfl (by norm_num) _⟩,
   ⟨rfl, (validate_quiz_question_index_handling qdNonNumericIndex 1).2 rfl⟩⟩

/-- A chat oracle whose every response is a JSON array holding exactly one
valid question. -/
def chatOneValidQuestion : ℕ → List ChatMessage → Except PyExc String :=
  fun _ _ => .ok "[\x7b\"question\": \"What is 2+2?\", \"options\": [\"1\", \"2\", \"3\", \"4\"], \"correct_index\": 3, \"explanation\": \"Because.\"\x7d]"

/-- The single question parsed out of `chatOneValidQuestion`. -/
def oneValidQuestion : QuizQuestion :=
  { id := .str "q1", question := "What is 2+2?", options := ["1", "2", "3", "4"],
    correct_index := 3, explanation := "Because." }

/-- Counterexample to C2 as stated: with `question_count = 5` and a
response yielding exactly one valid question, `generate_quiz` returns that
single non-placeholder question immediately — it does not require the
validated count to meet the requested count, and it neither retries nor
falls back. -/
theorem generate_quiz_short_count_cex :
    generate_quiz chatOneValidQuestion (some ⟨"You are a quiz generator."⟩) none none 5 3
      = [oneValidQuestion] ∧
    [oneValidQuestion].length < 5 ∧
    generate_quiz chatOneValidQuestion (some ⟨"You are a quiz generator."⟩) none none 5 3
      ≠ generate_fallback_quiz none 5 := by
  have heval : generate_quiz chatOneValidQuestion (some ⟨"You are a quiz generator."⟩)
      none none 5 3 = [oneValidQuestion] := rfl
  refine ⟨heval, by norm_num, ?_⟩
  rw [heval]
  intro h
  have := congrArg List.length h
  simp [generate_fallback_quiz] at this

/-- Unfolding of one `generate_quiz` loop iteration: parse yields at least
one valid question — return it. -/
theorem generateQuizGo_ok_nonempty (chat : ℕ → List ChatMessage → Except PyExc String)
    (agent : AgentPrompt) (topic content : Option String) (qc mr fuel attempt : ℕ)
    (messages : List ChatMessage) (r : String) (qs : List QuizQuestion)
    (hc : chat attempt messages = .ok r)
    (hp : parse_quiz_response r qc = .ok qs) (hne : qs.isEmpty = false) :
    generateQuizGo chat agent topic content qc mr (fuel + 1) attempt messages = qs := by
  simp [generateQuizGo, hc, hp, hne]

/-- Unfolding of one `generate_quiz` loop iteration: zero valid questions
with attempts remaining — rebuild the prompt with the stricter JSON-only
correction and iterate. -/
theorem generateQuizGo_empty_rebuild (chat : ℕ → List ChatMessage → Except PyExc String)
    (agent : AgentPrompt) (topic content : Option String) (qc mr fuel attempt : ℕ)
    (messages : List ChatMessage) (r : String)
    (hc : chat attempt messages = .ok r)
    (hp : parse_quiz_response r qc = .ok []) (hlt : attempt + 1 < mr) :
    generateQuizGo chat agent topic content qc mr (fuel + 1) attempt messages
      = generateQuizGo chat agent topic content qc mr fuel (attempt + 1)
          (build_quiz_messages agent topic content qc true) := by
  simp [generateQuizGo, hc, hp, hlt]

/-- Unfolding of one `generate_quiz` loop iteration: zero valid questions
on the final attempt — the loop ends with the current messages kept. -/
theorem generateQuizGo_empty_stay (chat : ℕ → List ChatMessage → Except PyExc String)
    (agent : AgentPrompt) (topic content : Option String) (qc mr fuel attempt : ℕ)
    (messages : List ChatMessage) (r : String)
    (hc : chat attempt messages = .ok r)
    (hp : parse_quiz_response r qc = .ok []) (hge : ¬ attempt + 1 < mr) :
    generateQuizGo chat agent topic content qc mr (fuel + 1) attempt messages
      = generateQuizGo chat agent topic content qc mr fuel (attempt + 1) messages := by
  simp [generateQuizGo, hc, hp, hge]

/-- Unfolding of one `generate_quiz` loop iteration: an exception on a
non-final attempt — continue with the same messages (no strict rebuild on
this path). -/
theorem generateQuizGo_err_stay (chat : ℕ → List ChatMessage → Except PyExc String)
    (agent : AgentPrompt) (topic content : Option String) (qc mr fuel attempt : ℕ)
    (messages : List ChatMessage) (e : PyExc)
    (hc : chat attempt messages = .error e) (hlt : ¬ attempt + 1 ≥ mr) :
    generateQuizGo chat agent topic content qc mr (fuel + 1) attempt messages
      = generateQuizGo chat agent topic content qc mr fuel (attempt + 1) messages := by
  simp [generateQuizGo, hc, hlt]

/-- Unfolding of one `generate_quiz` loop iteration: an exception on the
final attempt — return the placeholder set. -/
theorem generateQuizGo_err_last (chat : ℕ → List ChatMessage → Except PyExc String)
    (agent : AgentPrompt) (topic content : Option String) (qc mr fuel attempt : ℕ)
    (messages : List ChatMessage) (e : PyExc)
    (hc : chat attempt messages = .error e) (hge : attempt + 1 ≥ mr) :
    generateQuizGo chat agent topic content qc mr (fuel + 1) attempt messages
      = generate_fallback_quiz topic qc := by
  simp [generateQuizGo, hc, hge]

/-- C2 (amended): `generate_quiz` returns the validated question list of
the first attempt whose parse yields AT LEAST ONE valid question — even
when that count is below `question_count`; only an attempt yielding zero
valid questions triggers the stricter JSON-only prompt rebuild and retry
(bounded at 3 attempts), after which the clearly-labeled placeholder set
is returned; chat exceptions likewise end in the placeholder set and are
never re-raised (on the exception path the prompt is not rebuilt). -/
theorem generate_quiz_retry_and_fallback
    (chat : ℕ → List ChatMessage → Except PyExc String) (agent : AgentPrompt)
    (topic content : Option String) (qc : ℕ) :
    (∀ r qs, chat 0 (build_quiz_messages agent topic content qc false) = .ok r →
      parse_quiz_response r qc = .ok qs → qs ≠ [] →
      generate_quiz chat (some agent) topic content qc 3 = qs) ∧
    (∀ r0 r1 qs1,
      chat 0 (build_quiz_messages agent topic content qc false) = .ok r0 →
      parse_quiz_response r0 qc = .ok [] →
      chat 1 (build_quiz_messages agent topic content qc true) = .ok r1 →
      parse_quiz_response r1 qc = .ok qs1 → qs1 ≠ [] →
      generate_quiz chat (some agent) topic content qc 3 = qs1) ∧
    (∀ r0 r1 r2,
      chat 0 (build_quiz_messages agent topic content qc false) = .ok r0 →
      parse_quiz_response r0 qc = .ok [] →
      chat 1 (build_quiz_messages agent topic content qc true) = .ok r1 →
      parse_quiz_response r1 qc = .ok [] →
      chat 2 (build_quiz_messages agent topic content qc true) = .ok r2 →
      parse_quiz_response r2 qc = .ok [] →
      generate_quiz chat (some agent) topic content qc 3
        = generate_fallback_quiz topic qc) ∧
    ((∀ a, a < 3 → ∃ e, chat a (build_quiz_messages agent topic content qc false) = .error e) →
      generate_quiz chat (some agent) topic content qc 3
        = generate_fallback_quiz topic qc) := by
  refine ⟨?_, ?_, ?_, ?_⟩
  · intro r qs h0 hp hne
    have hne2 : qs.isEmpty = false := by cases qs <;> simp_all
    simp only [generate_quiz]
    exact generateQuizGo_ok_nonempty chat agent topic content qc 3 2 0 _ r qs h0 hp hne2
  · intro r0 r1 qs1 h0 hp0 h1 hp1 hne
    have hne2 : qs1.isEmpty = false := by cases qs1 <;> simp_all
    have e1 : generateQuizGo chat agent topic content qc 3 3 0
        (build_quiz_messages agent topic content qc false)
        = generateQuizGo chat agent topic content qc 3 2 1
            (build_quiz_messages agent topic content qc true) :=
      generateQuizGo_empty_rebuild chat agent topic content qc 3 2 0 _ r0 h0 hp0 (by omega)
    have e2 : generateQuizGo chat agent topic content qc 3 2 1
        (build_quiz_messages agent topic content qc true) = qs1 :=
      generateQuizGo_ok_nonempty chat agent topic content qc 3 1 1 _ r1 qs1 h1 hp1 hne2
    simp only [generate_quiz]
    rw [e1, e2]
  · intro r0 r1 r2 h0 hp0 h1 hp1 h2 hp2
    have e1 : generateQuizGo chat agent topic content qc 3 3 0
        (build_quiz_messages agent topic content qc false)
        = generateQuizGo chat agent topic content qc 3 2 1
            (build_quiz_messages agent topic content qc true) :=
      generateQuizGo_empty_rebuild chat agent topic content qc 3 2 0 _ r0 h0 hp0 (by omega)
    have e2 : generateQuizGo chat agent topic content qc 3 2 1
        (build_quiz_messages agent topic content qc true)
        = generateQuizGo chat agent topic content qc 3 1 2
            (build_quiz_messages agent topic content qc true) :=
      generateQuizGo_empty_rebuild chat agent topic content qc 3 1 1 _ r1 h1 hp1 (by omega)
    have e3 : generateQuizGo chat agent topic content qc 3 1 2
        (build_quiz_messages agent topic content qc true)
        = generateQuizGo chat agent topic content qc 3 0 3
            (build_quiz_messages agent topic content qc true) :=
      generateQuizGo_empty_stay chat agent topic content qc 3 0 2 _ r2 h2 hp2 (by omega)
    simp only [generate_quiz]
    rw [e1, e2, e3]
    rfl
  · intro hall
    obtain ⟨e0, he0⟩ := hall 0 (by omega)
    obtain ⟨e1x, he1⟩ := hall 1 (by omega)
    obtain ⟨e2x, he2⟩ := hall 2 (by omega)
    have s1 : generateQuizGo chat agent topic content qc 3 3 0
        (build_quiz_messages agent topic content qc false)
        = generateQuizGo chat agent topic content qc 3 2 1
            (build_quiz_messages agent topic content qc false) :=
      generateQuizGo_err_stay chat agent topic content qc 3 2 0 _ e0 he0 (by omega)
    have s2 : generateQuizGo chat agent topic content qc 3 2 1
        (build_quiz_messages agent topic content qc false)
        = generateQuizGo chat agent topic content qc 3 1 2
            (build_quiz_messages agent topic content qc false) :=
      generateQuizGo_err_stay chat agent topic content qc 3 1 1 _ e1x he1 (by omega)
    have s3 : generateQuizGo chat agent topic content qc 3 1 2
        (build_quiz_messages agent topic content qc false)
        = generate_fallback_quiz topic qc :=
      generateQuizGo_err_last chat agent topic content qc 3 0 2 _ e2x he2 (by omega)
    simp only [generate_quiz]
    rw [s1, s2, s3]

/-- A chat oracle that always responds with prose holding no JSON array. -/
def chatNeverValid : ℕ → List ChatMessage → Except PyExc String :=
  fun _ _ => .ok "I am sorry, I cannot produce a quiz right now."

/-- Witness for C2 (amended) at a concrete oracle: three attempts of
unparsable prose end in the placeholder question set. -/
theorem generate_quiz_retry_and_fallback_witness :
    (chatNeverValid 0 (build_quiz_messages ⟨"You are a quiz generator."⟩ none none 2 false)
        = .ok "I am sorry, I cannot produce a quiz right now." ∧
      parse_quiz_response "I am sorry, I cannot produce a quiz right now." 2 = .ok []) ∧
    generate_quiz chatNeverValid (some ⟨"You are a quiz generator."⟩) none none 2 3
      = generate_fallback_quiz none 2 :=
  ⟨⟨rfl, rfl⟩,
   (generate_quiz_retry_and_fallback chatNeverValid ⟨"You are a quiz generator."⟩
      none none 2).2.2.1
     "I am sorry, I cannot produce a quiz right now."
     "I am sorry, I cannot produce a quiz right now."
     "I am sorry, I cannot produce a quiz right now."
     rfl rfl rfl rfl rfl rfl⟩

/-! ### `agent_orchestrator.py`: document chunking -/

/-- The sentence-boundary split of `_split_long_paragraph`
(`re.split` on whitespace runs preceded by `.`, `!` or `?`): `acc` holds
the current piece reversed; a whitespace run whose immediately preceding
character is sentence punctuation ends the piece and is consumed whole.
`fuel` bounds recursion (call with the text length). -/
def sentenceSplitGo : ℕ → List Char → List Char → List (List Char)
  | _, acc, [] => [acc.reverse]
  | 0, acc, rest => [acc.reverse ++ rest]
  | fuel + 1, acc, c :: rest =>
    if (acc.head? = some '.' ∨ acc.head? = some '!' ∨ acc.head? = some '?') ∧ pyIsSpace c then
      acc.reverse :: sentenceSplitGo fuel [] ((c :: rest).dropWhile pyIsSpace)
    else
      sentenceSplitGo fuel (c :: acc) rest

/-- `re.split` at sentence boundaries, as used by `_split_long_paragraph`. -/
def pySentenceSplit (s : List Char) : List (List Char) :=
  sentenceSplitGo s.length [] s

/-- The `for i in range(0, len(sentence), max_chars)` hard slicing of
`_split_long_paragraph` (faithful for `max_chars ≥ 1`; call with the
sentence length as fuel). -/
def hardSlices : ℕ → List Char → ℕ → List (List Char)
  | 0, _, _ => []
  | fuel + 1, s, maxChars =>
    if s = [] then []
    else s.take maxChars :: hardSlices fuel (s.drop maxChars) maxChars

/-- The sentence-accumulation loop of `_split_long_paragraph`
(state: closed chunks and the running chunk). -/
def splitLongGo (maxChars : ℕ) :
    List (List Char) → List Char → List (List Char) → List (List Char)
  | chunks, current, [] =>
    if current ≠ [] then chunks ++ [pyStripL current] else chunks
  | chunks, current, sentence :: rest =>
    if current.length + sentence.length + 1 > maxChars then
      let chunks2 := if current ≠ [] then chunks ++ [pyStripL current] else chunks
      if sentence.length > maxChars then
        splitLongGo maxChars (chunks2 ++ hardSlices sentence.length sentence maxChars) [] rest
      else
        splitLongGo maxChars chunks2 sentence rest
    else
      splitLongGo maxChars chunks (pyStripL (current ++ ' ' :: sentence)) rest

/-- `AgentOrchestrator._split_long_paragraph`. -/
def split_long_paragraph (text : List Char) (maxChars : ℕ) : List (List Char) :=
  splitLongGo maxChars [] [] (pySentenceSplit text)

/-- The paragraph-accumulation loop of `_chunk_document`. -/
def chunkGo (maxChunkChars : ℕ) :
    List (List Char) → List Char → List (List Char) → List (List Char)
  | chunks, current, [] =>
    if current ≠ [] then chunks ++ [pyStripL current] else chunks
  | chunks, current, para :: rest =>
    if current.length + para.length + 2 > maxChunkChars then
      let chunks2 := if current ≠ [] then chunks ++ [pyStripL current] else chunks
      if para.length > maxChunkChars then
        let paraChunks := split_long_paragraph para maxChunkChars
        chunkGo maxChunkChars (chunks2 ++ paraChunks.dropLast)
          ((paraChunks.getLast?).getD []) rest
      else
        chunkGo maxChunkChars chunks2 para rest
    else
      if current ≠ [] then
        chunkGo maxChunkChars chunks (current ++ '\n' :: '\n' :: para) rest
      else
        chunkGo maxChunkChars chunks para rest

/-- `AgentOrchestrator._chunk_document`: split at blank-line paragraph
boundaries, greedily accumulate, with oversized paragraphs handed to
`_split_long_paragraph`; a final fallback slice guards against an empty
chunk list. -/
def chunk_document (text : List Char) (maxChunkChars : ℕ) : List (List Char) :=
  let chunks := chunkGo maxChunkChars [] [] (splitOnSub ['\n', '\n'] text)
  if chunks = [] then [text.take maxChunkChars] else chunks

/-! ### Claim C6 -/

/-- Stripping never lengthens a string. -/
theorem pyStripL_length_le (s : List Char) : (pyStripL s).length ≤ s.length := by
  have h1 : ((s.dropWhile pyIsSpace).reverse.dropWhile pyIsSpace).length
      ≤ (s.dropWhile pyIsSpace).reverse.length :=
    (List.dropWhile_suffix _).sublist.length_le
  have h2 : (s.dropWhile pyIsSpace).length ≤ s.length :=
    (List.dropWhile_suffix _).sublist.length_le
  simp only [pyStripL, List.length_reverse] at h1 ⊢
  omega

/-- Membership from a `getLast?` hit. -/
theorem mem_of_getLast?_eq_some {α : Type} {l : List α} {a : α}
    (h : l.getLast? = some a) : a ∈ l := by
  have hx : a ∈ l.getLast? := by simp [Option.mem_def, h]
  obtain ⟨hne, rfl⟩ := List.mem_getLast?_eq_getLast hx
  exact List.getLast_mem hne

/-- Every hard slice respects the character budget. -/
theorem hardSlices_length_le (m : ℕ) :
    ∀ (fuel : ℕ) (s : List Char), ∀ c ∈ hardSlices fuel s m, c.length ≤ m := by
  intro fuel
  induction fuel with
  | zero => intro s c hc; simp [hardSlices] at hc
  | succ f ih =>
    intro s c hc
    by_cases hs : s = []
    · simp [hardSlices, hs] at hc
    · simp only [hardSlices, if_neg hs, List.mem_cons] at hc
      rcases hc with rfl | hc
      · simpa using Nat.min_le_left m s.length
      · exact ih _ c hc

/-- Invariant of the `_split_long_paragraph` loop: chunks never exceed the
budget. -/
theorem splitLongGo_length_le (m : ℕ) :
    ∀ (sentences : List (List Char)) (chunks : List (List Char)) (current : List Char),
      (∀ c ∈ chunks, c.length ≤ m) → current.length ≤ m →
      ∀ c ∈ splitLongGo m chunks current sentences, c.length ≤ m := by
  intro sentences
  induction sentences with
  | nil =>
    intro chunks current hch hcur c hc
    simp only [splitLongGo] at hc
    by_cases h : current ≠ []
    · rw [if_pos h] at hc
      rcases List.mem_append.mp hc with hc | hc
      · exact hch c hc
      · simp only [List.mem_singleton] at hc
        subst hc
        exact le_trans (pyStripL_length_le current) hcur
    · rw [if_neg h] at hc
      exact hch c hc
  | cons sentence rest ih =>
    intro chunks current hch hcur c hc
    simp only [splitLongGo] at hc
    by_cases hover : current.length + sentence.length + 1 > m
    · rw [if_pos hover] at hc
      have hch2 : ∀ c2 ∈ (if current ≠ [] then chunks ++ [pyStripL current] else chunks),
          c2.length ≤ m := by
        intro c2 hc2
        by_cases h : current ≠ []
        · rw [if_pos h] at hc2
          rcases List.mem_append.mp hc2 with hc2 | hc2
          · exact hch c2 hc2
          · simp only [List.mem_singleton] at hc2
            subst hc2
            exact le_trans (pyStripL_length_le current) hcur
        · rw [if_neg h] at hc2
          exact hch c2 hc2
      by_cases hlong : sentence.length > m
      · rw [if_pos hlong] at hc
        refine ih _ [] ?_ (by simp) c hc
        intro c2 hc2
        rcases List.mem_append.mp hc2 with hc2 | hc2
        · exact hch2 c2 hc2
        · exact hardSlices_length_le m sentence.length sentence c2 hc2
      · rw [if_neg hlong] at hc
        exact ih _ sentence hch2 (by omega) c hc
    · rw [if_neg hover] at hc
      refine ih chunks _ hch ?_ c hc
      calc (pyStripL (current ++ ' ' :: sentence)).length
          ≤ (current ++ ' ' :: sentence).length := pyStripL_length_le _
        _ ≤ m := by simp only [List.length_append, List.length_cons]; omega

/-- Every chunk of `_split_long_paragraph` respects the budget. -/
theorem split_long_paragraph_length_le (text : List Char) (m : ℕ) :
    ∀ c ∈ split_long_paragraph text m, c.length ≤ m :=
  splitLongGo_length_le m (pySentenceSplit text) [] [] (by simp) (by simp)

/-- Invariant of the `_chunk_document` loop: chunks never exceed the
budget. -/
theorem chunkGo_length_le (m : ℕ) :
    ∀ (paras : List (List Char)) (chunks : List (List Char)) (current : List Char),
      (∀ c ∈ chunks, c.length ≤ m) → current.length ≤ m →
      ∀ c ∈ chunkGo m chunks current paras, c.length ≤ m := by
  intro paras
  induction paras with
  | nil =>
    intro chunks current hch hcur c hc
    simp only [chunkGo] at hc
    by_cases h : current ≠ []
    · rw [if_pos h] at hc
      rcases List.mem_append.mp hc with hc | hc
      · exact hch c hc
      · simp only [List.mem_singleton] at hc
        subst hc
        exact le_trans (pyStripL_length_le current) hcur
    · rw [if_neg h] at hc
      exact hch c hc
  | cons para rest ih =>
    intro chunks current hch hcur c hc
    simp only [chunkGo] at hc
    by_cases hover : current.length + para.length + 2 > m
    · rw [if_pos hover] at hc
      have hch2 : ∀ c2 ∈ (if current ≠ [] then chunks ++ [pyStripL current] else chunks),
          c2.length ≤ m := by
        intro c2 hc2
        by_cases h : current ≠ []
        · rw [if_pos h] at hc2
          rcases List.mem_append.mp hc2 with hc2 | hc2
          · exact hch c2 hc2
          · simp only [List.mem_singleton] at hc2
            subst hc2
            exact le_trans (pyStripL_length_le current) hcur
        · rw [if_neg h] at hc2
          exact hch c2 hc2
      by_cases hlong : para.length > m
      · rw [if_pos hlong] at hc
        have hpc := split_long_paragraph_length_le para m
        refine ih _ _ ?_ ?_ c hc
        · intro c2 hc2
          rcases List.mem_append.mp hc2 with hc2 | hc2
          · exact hch2 c2 hc2
          · exact hpc c2 (List.mem_of_mem_dropLast hc2)
        · cases hlast : (split_long_paragraph para m).getLast? with
          | none => simp
          | some l =>
            simpa using hpc l (mem_of_getLast?_eq_some hlast)
      · rw [if_neg hlong] at hc
        exact ih _ para hch2 (by omega) c hc
    · rw [if_neg hover] at hc
      by_cases h : current ≠ []
      · rw [if_pos h] at hc
        refine ih chunks _ hch ?_ c hc
        simp only [List.length_append, List.length_cons]
        omega
      · rw [if_neg h] at hc
        refine ih chunks para hch ?_ c hc
        omega

/-- Counterexample to C6 as stated: the non-empty, whitespace-only text
`" "` with `max_chunk_chars = 5` yields `[""]` — a chunk list containing
an empty chunk (the trailing `current_chunk.strip()` append produces it),
refuting "every chunk is a non-empty string". -/
theorem chunk_document_empty_chunk_cex :
    chunk_document [' '] 5 = [[]] ∧
    ¬ (∀ c ∈ chunk_document [' '] 5, c ≠ []) := by
  have heval : chunk_document [' '] 5 = [[]] := rfl
  refine ⟨heval, fun hall => ?_⟩
  exact hall [] (by rw [heval]; simp) rfl

/-- C6 (amended): for every non-empty text and `max_chunk_chars > 0`,
`_chunk_document` returns at least one chunk and no chunk exceeds
`max_chunk_chars`; chunks are NOT guaranteed non-empty — a whitespace-only
paragraph can contribute an empty chunk. -/
theorem chunk_document_bounds (text : List Char) (maxChunkChars : ℕ)
    (htext : text ≠ []) (hmax : 0 < maxChunkChars) :
    chunk_document text maxChunkChars ≠ [] ∧
    ∀ c ∈ chunk_document text maxChunkChars, c.length ≤ maxChunkChars := by
  constructor
  · simp only [chunk_document]
    split
    · simp
    · assumption
  · intro c hc
    simp only [chunk_document] at hc
    split at hc
    · simp only [List.mem_singleton] at hc
      subst hc
      simp only [List.length_take]
      exact Nat.min_le_left _ _
    · exact chunkGo_length_le maxChunkChars _ [] [] (by simp) (by simp) c hc

/-- Witness for C6 (amended) at a concrete input: a two-paragraph text with
budget 8 yields chunks within the budget. -/
theorem chunk_document_bounds_witness :
    ("ab cd.\n\nefg".data ≠ [] ∧ 0 < 8) ∧
    (chunk_document "ab cd.\n\nefg".data 8 ≠ [] ∧
      ∀ c ∈ chunk_document "ab cd.\n\nefg".data 8, c.length ≤ 8) :=
  ⟨⟨by decide, by decide⟩, chunk_document_bounds "ab cd.\n\nefg".data 8 (by decide) (by decide)⟩

/-! ### `agent_orchestrator.py`: result aggregation -/

/-- One `{term, definition}` concept entry (string-valued, as produced by
`_normalize_content_result`). -/
structure Concept where
  term : String
  definition : String
  deriving DecidableEq, Repr

/-- The fixed-shape content-extraction result dict of the content
pipeline; every site producing one carries exactly these keys, so the
dict is modelled as a structure. -/
structure ExtractionResult where
  title : String
  summary : String
  key_points : List String
  concepts : List Concept
  topics : List String
  source_type : String
  processing_status : String
  error_message : Option String
  deriving DecidableEq, Repr

/-- The dedup loop of `_combine_chunk_results`: iterate over the
concatenated entries carrying a `seen` set of keys, keeping an entry when
its key passes `keep` and has not been seen.  The source repeats this loop
for key points (no guard), concepts (guarded by a non-empty term key) and
topics. -/
def dedupLoop {α : Type} (key : α → String) (keep : α → Bool) :
    List String → List α → List α
  | _, [] => []
  | seen, x :: xs =>
    if keep x = true ∧ key x ∉ seen then x :: dedupLoop key keep (key x :: seen) xs
    else dedupLoop key keep seen xs

/-- The key under which key points and topics are deduplicated:
`value.lower().strip()`. -/
def lowerStripKey (p : String) : String := pyStrip (pyLower p)

/-- The key under which concepts are deduplicated:
`concept.get("term", "").lower().strip()`. -/
def conceptKey (c : Concept) : String := pyStrip (pyLower c.term)

/-- Title munging of `_combine_chunk_results`: cut everything from a
`"(part"` marker on and strip. -/
def stripPartMarker (title : String) : String :=
  if containsSub "(part".data title.data then
    pyStrip ⟨(title.data).take ((findSubL "(part".data title.data).getD 0)⟩
  else title

/-- `AgentOrchestrator._combine_chunk_results` (`none` models the
`IndexError` a `chunk_results[0]` read raises on an empty list; every
call site guards non-emptiness). -/
def combine_chunk_results (chunkResults : List ExtractionResult)
    (content_type filename : String) : Option ExtractionResult :=
  match chunkResults with
  | [] => none
  | r0 :: _ =>
    let title := stripPartMarker r0.title
    let summaries := (chunkResults.map (·.summary)).filter (· ≠ "")
    let combinedSummary := String.intercalate " " summaries
    let allKeyPoints :=
      dedupLoop lowerStripKey (fun _ => true) [] ((chunkResults.map (·.key_points)).flatten)
    let allConcepts :=
      dedupLoop conceptKey (fun c => conceptKey c ≠ "") []
        ((chunkResults.map (·.concepts)).flatten)
    let allTopics :=
      dedupLoop lowerStripKey (fun _ => true) [] ((chunkResults.map (·.topics)).flatten)
    some
      { title := title,
        summary := combinedSummary,
        key_points := allKeyPoints.take 10,
        concepts := allConcepts.take 10,
        topics := allTopics.take 10,
        source_type := content_type,
        processing_status := "complete",
        error_message := none }

/-! ### Claim C7 -/

/-- The dedup loop only drops entries, in order. -/
theorem dedupLoop_sublist {α : Type} (key : α → String) (keep : α → Bool) :
    ∀ (seen : List String) (l : List α), (dedupLoop key keep seen l).Sublist l := by
  intro seen l
  induction l generalizing seen with
  | nil => simp [dedupLoop]
  | cons x xs ih =>
    simp only [dedupLoop]
    split
    · exact (ih (key x :: seen)).cons₂ x
    · exact (ih seen).cons x

/-- The dedup loop yields pairwise-distinct keys, none of them previously
seen, all of them passing the guard. -/
theorem dedupLoop_keys {α : Type} (key : α → String) (keep : α → Bool) :
    ∀ (seen : List String) (l : List α),
      ((dedupLoop key keep seen l).map key).Nodup ∧
      ∀ x ∈ dedupLoop key keep seen l, keep x = true ∧ key x ∉ seen := by
  intro seen l
  induction l generalizing seen with
  | nil => simp [dedupLoop]
  | cons x xs ih =>
    simp only [dedupLoop]
    split
    · rename_i hcond
      obtain ⟨ihnodup, ihall⟩ := ih (key x :: seen)
      refine ⟨List.Nodup.cons ?_ ihnodup, ?_⟩
      · intro hmem
        obtain ⟨z, hz, hkz⟩ := List.mem_map.mp hmem
        have := (ihall z hz).2
        simp [hkz] at this
      · intro z hz
        rcases List.mem_cons.mp hz with rfl | hz
        · exact ⟨hcond.1, hcond.2⟩
        · obtain ⟨hk, hs⟩ := ihall z hz
          exact ⟨hk, fun hmem => hs (List.mem_cons_of_mem _ hmem)⟩
    · obtain ⟨ihnodup, ihall⟩ := ih seen
      exact ⟨ihnodup, ihall⟩

/-- Each kept entry is the first entry of the input carrying its key
(provided the guard is determined by the key). -/
theorem dedupLoop_find {α : Type} (key : α → String) (keep : α → Bool)
    (hdet : ∀ a b, key a = key b → keep a = keep b) :
    ∀ (seen : List String) (l : List α) (x : α), x ∈ dedupLoop key keep seen l →
      keep x = true ∧ key x ∉ seen ∧
      l.find? (fun y => key y = key x) = some x := by
  intro seen l
  induction l generalizing seen with
  | nil => simp [dedupLoop]
  | cons y ys ih =>
    intro x hx
    simp only [dedupLoop] at hx
    split at hx
    · rename_i hcond
      rcases List.mem_cons.mp hx with rfl | hx
      · exact ⟨hcond.1, hcond.2, by simp [List.find?_cons]⟩
      · obtain ⟨hk, hs, hf⟩ := ih (key y :: seen) x hx
        have hne : key y ≠ key x := by
          intro heq
          exact hs (by simp [heq])
        refine ⟨hk, fun hmem => hs (List.mem_cons_of_mem _ hmem), ?_⟩
        rw [List.find?_cons]
        simp [hne, hf]
    · rename_i hcond
      obtain ⟨hk, hs, hf⟩ := ih seen x hx
      have hne : key y ≠ key x := by
        intro heq
        have : keep y = true := (hdet y x heq).trans hk
        exact hcond ⟨this, by rw [heq]; exact hs⟩
      refine ⟨hk, hs, ?_⟩
      rw [List.find?_cons]
      simp [hne, hf]

/-- A chunk result holding the key point `"Same Point"`. -/
def resSamePointA : ExtractionResult :=
  { title := "T", summary := "S1", key_points := ["Same Point"], concepts := [],
    topics := ["Alpha"], source_type := "text", processing_status := "complete",
    error_message := none }

/-- A chunk result holding the same key point in different case. -/
def resSamePointB : ExtractionResult :=
  { title := "T", summary := "S2", key_points := ["SAME POINT"], concepts := [],
    topics := ["ALPHA"], source_type := "text", processing_status := "complete",
    error_message := none }

/-- C7: in every combined chunk result, `key_points`, `concepts` (keyed by
lower-cased trimmed term) and `topics` carry pairwise-distinct
case-insensitive trimmed keys, are order-preserving sublists of the
concatenated inputs whose every element is the first input occurrence of
its key, and are truncated to 10 entries; in particular combining two
results holding `"Same Point"` in different cases keeps it once. -/
theorem combine_chunk_results_dedup :
    (∀ (results : List ExtractionResult) (ct fn : String) (c : ExtractionResult),
      combine_chunk_results results ct fn = some c →
      ((c.key_points.map lowerStripKey).Nodup ∧
        c.key_points.Sublist ((results.map (·.key_points)).flatten) ∧
        (∀ x ∈ c.key_points,
          ((results.map (·.key_points)).flatten).find?
            (fun y => lowerStripKey y = lowerStripKey x) = some x) ∧
        c.key_points.length ≤ 10) ∧
      ((c.concepts.map conceptKey).Nodup ∧
        c.concepts.Sublist ((results.map (·.concepts)).flatten) ∧
        (∀ x ∈ c.concepts, conceptKey x ≠ "" ∧
          ((results.map (·.concepts)).flatten).find?
            (fun y => conceptKey y = conceptKey x) = some x) ∧
        c.concepts.length ≤ 10) ∧
      ((c.topics.map lowerStripKey).Nodup ∧
        c.topics.Sublist ((results.map (·.topics)).flatten) ∧
        (∀ x ∈ c.topics,
          ((results.map (·.topics)).flatten).find?
            (fun y => lowerStripKey y = lowerStripKey x) = some x) ∧
        c.topics.length ≤ 10)) ∧
    combine_chunk_results [resSamePointA, resSamePointB] "text" "doc.txt"
      = some { title := "T", summary := "S1 S2", key_points := ["Same Point"],
               concepts := [], topics := ["Alpha"], source_type := "text",
               processing_status := "complete", error_message := none } := by
  constructor
  · intro results ct fn c hcomb
    match results with
    | [] => simp [combine_chunk_results] at hcomb
    | r0 :: rs =>
      simp only [combine_chunk_results, Option.some.injEq] at hcomb
      subst hcomb
      refine ⟨⟨?_, ?_, ?_, ?_⟩, ⟨?_, ?_, ?_, ?_⟩, ⟨?_, ?_, ?_, ?_⟩⟩
      · rw [List.map_take]
        exact ((dedupLoop_keys lowerStripKey (fun _ => true) [] _).1).sublist
          (List.take_sublist _ _)
      · exact (List.take_sublist _ _).trans
          (dedupLoop_sublist lowerStripKey (fun _ => true) [] _)
      · intro x hx
        exact ((dedupLoop_find lowerStripKey (fun _ => true) (by simp) [] _ x
          (List.mem_of_mem_take hx)).2).2
      · exact List.length_take_le _ _
      · rw [List.map_take]
        exact ((dedupLoop_keys conceptKey (fun c2 => conceptKey c2 ≠ "") [] _).1).sublist
          (List.take_sublist _ _)
      · exact (List.take_sublist _ _).trans
          (dedupLoop_sublist conceptKey (fun c2 => conceptKey c2 ≠ "") [] _)
      · intro x hx
        have hfind := dedupLoop_find conceptKey (fun c2 => conceptKey c2 ≠ "")
          (by intro a b hab; simp [hab]) [] _ x (List.mem_of_mem_take hx)
        refine ⟨by simpa using hfind.1, hfind.2.2⟩
      · exact List.length_take_le _ _
      · rw [List.map_take]
        exact ((dedupLoop_keys lowerStripKey (fun _ => true) [] _).1).sublist
          (List.take_sublist _ _)
      · exact (List.take_sublist _ _).trans
          (dedupLoop_sublist lowerStripKey (fun _ => true) [] _)
      · intro x hx
        exact ((dedupLoop_find lowerStripKey (fun _ => true) (by simp) [] _ x
          (List.mem_of_mem_take hx)).2).2
      · exact List.length_take_le _ _
  · rfl

/-- Witness for C7 at the concrete two-result input: the combined
`key_points` of the case-differing inputs carry pairwise-distinct keys and
at most 10 entries. -/
theorem combine_chunk_results_dedup_witness :
    combine_chunk_results [resSamePointA, resSamePointB] "text" "doc.txt"
      = some { title := "T", summary := "S1 S2", key_points := ["Same Point"],
               concepts := [], topics := ["Alpha"], source_type := "text",
               processing_status := "complete", error_message := none } ∧
    ((["Same Point"].map lowerStripKey).Nodup ∧ (["Same Point"] : List String).length ≤ 10) := by
  have h := combine_chunk_results_dedup
  have hinst := h.1 [resSamePointA, resSamePointB] "text" "doc.txt" _ h.2
  exact ⟨h.2, by simpa using hinst.1.1, by decide⟩

/-! ### `video_processor.py`: frame sampling -/

/-- Python `int(x)` truncation toward zero, on exact rationals
(`Int.tdiv` is truncating division, and a rational is stored as a reduced
numerator/denominator pair). -/
def pyIntQ (q : ℚ) : ℤ := q.num.tdiv q.den

/-- `VideoProcessor` configuration (floats as exact rationals; the
deployed instance uses `max_frames = 5`, `frame_quality = 85`,
`min_frame_interval = 2`). -/
structure VideoProcessor where
  max_frames : ℕ
  frame_quality : ℕ
  min_frame_interval : ℚ
  deriving DecidableEq, Repr

/-- `VideoProcessor._calculate_frame_positions`: pick evenly spaced frame
indices in the trimmed 5%–95% window, clamped to valid indices (`fps` is
accepted but unused, as in the source). -/
def calculate_frame_positions (vp : VideoProcessor) (total_frames : ℤ)
    (fps : ℚ) (duration : ℚ) : List ℤ :=
  if duration ≤ 0 ∨ total_frames ≤ 0 then []
  else
    let maxPossible : ℤ := pyIntQ (duration / vp.min_frame_interval) + 1
    let numFrames : ℤ := min (min (vp.max_frames : ℤ) maxPossible) total_frames
    if numFrames ≤ 1 then [Int.fdiv total_frames 2]
    else
      let startFrame : ℤ := pyIntQ ((total_frames : ℚ) * (5 / 100))
      let endFrame : ℤ := pyIntQ ((total_frames : ℚ) * (95 / 100))
      let startFrame2 := if endFrame ≤ startFrame then 0 else startFrame
      let endFrame2 := if endFrame ≤ startFrame then total_frames - 1 else endFrame
      let frameRange := endFrame2 - startFrame2
      if numFrames = 1 then [Int.fdiv (startFrame2 + endFrame2) 2]
      else
        (List.range numFrames.toNat).map (fun i : ℕ =>
          min (startFrame2 + pyIntQ ((frameRange : ℚ) * (i : ℚ) / ((numFrames : ℚ) - 1)))
            (total_frames - 1))

/-! ### Claim C8 -/

/-- Truncation agrees with floor on nonnegative rationals. -/
theorem pyIntQ_eq_floor {q : ℚ} (h : 0 ≤ q) : pyIntQ q = ⌊q⌋ := by
  rw [pyIntQ, Rat.floor_def, Int.tdiv_eq_ediv (Rat.num_nonneg.mpr h) (by positivity)]

/-- Truncation of a nonnegative rational is nonnegative. -/
theorem pyIntQ_nonneg {q : ℚ} (h : 0 ≤ q) : 0 ≤ pyIntQ q := by
  rw [pyIntQ_eq_floor h]
  exact Int.floor_nonneg.mpr h

/-- Bounds, length and monotonicity of the evenly-spaced position list in
the general branch. -/
theorem framePositions_props (start2 end2 total_frames numFrames : ℤ)
    (h0 : 0 ≤ start2) (hse : start2 ≤ end2) (hetf : end2 ≤ total_frames - 1)
    (h2 : 2 ≤ numFrames) :
    ((List.range numFrames.toNat).map (fun i : ℕ =>
        min (start2 + pyIntQ (((end2 - start2 : ℤ) : ℚ) * (i : ℚ) / ((numFrames : ℚ) - 1)))
          (total_frames - 1))).length = numFrames.toNat ∧
    (∀ p ∈ (List.range numFrames.toNat).map (fun i : ℕ =>
        min (start2 + pyIntQ (((end2 - start2 : ℤ) : ℚ) * (i : ℚ) / ((numFrames : ℚ) - 1)))
          (total_frames - 1)), 0 ≤ p ∧ p < total_frames) ∧
    ((List.range numFrames.toNat).map (fun i : ℕ =>
        min (start2 + pyIntQ (((end2 - start2 : ℤ) : ℚ) * (i : ℚ) / ((numFrames : ℚ) - 1)))
          (total_frames - 1))).Sorted (· ≤ ·) := by
  have hden : (0 : ℚ) < (numFrames : ℚ) - 1 := by
    have : (1 : ℚ) < (numFrames : ℚ) := by exact_mod_cast (by omega : (1 : ℤ) < numFrames)
    linarith
  have hrange : (0 : ℚ) ≤ ((end2 - start2 : ℤ) : ℚ) := by
    exact_mod_cast (by omega : (0 : ℤ) ≤ end2 - start2)
  have hqnonneg : ∀ i : ℕ,
      (0 : ℚ) ≤ ((end2 - start2 : ℤ) : ℚ) * (i : ℚ) / ((numFrames : ℚ) - 1) := by
    intro i
    have : (0 : ℚ) ≤ ((end2 - start2 : ℤ) : ℚ) * (i : ℚ) :=
      mul_nonneg hrange (by positivity)
    positivity
  refine ⟨by simp, ?_, ?_⟩
  · intro p hp
    obtain ⟨i, _, rfl⟩ := List.mem_map.mp hp
    constructor
    · refine le_min ?_ (by omega)
      have := pyIntQ_nonneg (hqnonneg i)
      omega
    · have : min (start2 + pyIntQ (((end2 - start2 : ℤ) : ℚ) * (i : ℚ) / ((numFrames : ℚ) - 1)))
          (total_frames - 1) ≤ total_frames - 1 := min_le_right _ _
      omega
  · refine List.Pairwise.map _ ?_ (List.pairwise_lt_range numFrames.toNat)
    intro i j hij
    have hmono : pyIntQ (((end2 - start2 : ℤ) : ℚ) * (i : ℚ) / ((numFrames : ℚ) - 1))
        ≤ pyIntQ (((end2 - start2 : ℤ) : ℚ) * (j : ℚ) / ((numFrames : ℚ) - 1)) := by
      rw [pyIntQ_eq_floor (hqnonneg i), pyIntQ_eq_floor (hqnonneg j)]
      apply Int.floor_le_floor
      gcongr
    exact min_le_min (by omega) le_rfl

/-- C8: for every configuration with `max_frames ≥ 1` and a positive
minimum interval, every `total_frames ≥ 1` and `fps > 0`, with the
duration derived as `total_frames / fps`, `_calculate_frame_positions`
(a pure function of its numeric inputs) returns between 1 and
`max_frames` frame indices, all inside `[0, total_frames)` and
non-decreasing. -/
theorem calculate_frame_positions_spec (vp : VideoProcessor) (total_frames : ℤ) (fps : ℚ)
    (hmf : 1 ≤ vp.max_frames) (hint : 0 < vp.min_frame_interval)
    (htf : 1 ≤ total_frames) (hfps : 0 < fps) :
    1 ≤ (calculate_frame_positions vp total_frames fps ((total_frames : ℚ) / fps)).length ∧
    (calculate_frame_positions vp total_frames fps
        ((total_frames : ℚ) / fps)).length ≤ vp.max_frames ∧
    (∀ p ∈ calculate_frame_positions vp total_frames fps ((total_frames : ℚ) / fps),
      0 ≤ p ∧ p < total_frames) ∧
    (calculate_frame_positions vp total_frames fps
        ((total_frames : ℚ) / fps)).Sorted (· ≤ ·) := by
  have htfQ : (0 : ℚ) < (total_frames : ℚ) := by
    exact_mod_cast (by omega : (0 : ℤ) < total_frames)
  have hdur : 0 < (total_frames : ℚ) / fps := div_pos htfQ hfps
  have hcond : ¬ ((total_frames : ℚ) / fps ≤ 0 ∨ total_frames ≤ 0) := by
    push_neg
    exact ⟨hdur, by omega⟩
  simp only [calculate_frame_positions]
  rw [if_neg hcond]
  set mP := pyIntQ ((total_frames : ℚ) / fps / vp.min_frame_interval) + 1 with hmP
  set numF := min (min ((vp.max_frames : ℤ)) mP) total_frames with hnumF
  have hmPpos : 1 ≤ mP := by
    have hq : (0 : ℚ) ≤ (total_frames : ℚ) / fps / vp.min_frame_interval :=
      le_of_lt (div_pos hdur hint)
    have := pyIntQ_nonneg hq
    omega
  have hmfZ : (1 : ℤ) ≤ (vp.max_frames : ℤ) := by exact_mod_cast hmf
  have h1 : 1 ≤ numF := by
    rw [hnumF]
    omega
  have hleMax : numF ≤ (vp.max_frames : ℤ) := by
    rw [hnumF]
    omega
  by_cases hsmall : numF ≤ 1
  · rw [if_pos hsmall]
    have hfd : Int.fdiv total_frames 2 = total_frames / 2 :=
      Int.fdiv_eq_ediv total_frames (by omega)
    refine ⟨by simp, by simpa using hmf, ?_, by simp⟩
    intro p hp
    simp only [List.mem_singleton] at hp
    subst hp
    rw [hfd]
    omega
  · rw [if_neg hsmall]
    rw [if_neg (show ¬ numF = 1 by omega)]
    set sF := pyIntQ ((total_frames : ℚ) * (5 / 100)) with hsF
    set eF := pyIntQ ((total_frames : ℚ) * (95 / 100)) with heF
    have hsF0 : 0 ≤ sF := by
      rw [hsF]
      exact pyIntQ_nonneg (by positivity)
    have heFtf : eF ≤ total_frames - 1 := by
      rw [heF, pyIntQ_eq_floor (by positivity)]
      have hlt : (total_frames : ℚ) * (95 / 100) < (total_frames : ℚ) :=
        mul_lt_of_lt_one_right htfQ (by norm_num)
      have := Int.floor_lt.mpr (by exact_mod_cast hlt)
      omega
    have h0 : 0 ≤ (if eF ≤ sF then 0 else sF) := by
      split <;> omega
    have hse : (if eF ≤ sF then 0 else sF) ≤ (if eF ≤ sF then total_frames - 1 else eF) := by
      split <;> omega
    have hetf : (if eF ≤ sF then total_frames - 1 else eF) ≤ total_frames - 1 := by
      split <;> omega
    have hprops := framePositions_props (if eF ≤ sF then 0 else sF)
      (if eF ≤ sF then total_frames - 1 else eF) total_frames numF h0 hse hetf (by omega)
    refine ⟨?_, ?_, hprops.2.1, hprops.2.2⟩
    · rw [hprops.1]
      omega
    · rw [hprops.1]
      omega

/-- Witness for C8 at the deployed configuration and a concrete video:
100 frames at 25 fps (duration 4s). -/
theorem calculate_frame_positions_spec_witness :
    (1 ≤ (VideoProcessor.mk 5 85 2).max_frames ∧
      (0 : ℚ) < (VideoProcessor.mk 5 85 2).min_frame_interval ∧
      (1 : ℤ) ≤ 100 ∧ (0 : ℚ) < 25) ∧
    (1 ≤ (calculate_frame_positions (VideoProcessor.mk 5 85 2) 100 25
        ((100 : ℚ) / 25)).length ∧
      (calculate_frame_positions (VideoProcessor.mk 5 85 2) 100 25
        ((100 : ℚ) / 25)).length ≤ (VideoProcessor.mk 5 85 2).max_frames ∧
      (∀ p ∈ calculate_frame_positions (VideoProcessor.mk 5 85 2) 100 25
        ((100 : ℚ) / 25), 0 ≤ p ∧ p < 100) ∧
      (calculate_frame_positions (VideoProcessor.mk 5 85 2) 100 25
        ((100 : ℚ) / 25)).Sorted (· ≤ ·)) :=
  ⟨⟨by norm_num, by norm_num, by norm_num, by norm_num⟩,
   calculate_frame_positions_spec (VideoProcessor.mk 5 85 2) 100 25
     (by norm_num) (by norm_num) (by norm_num) (by norm_num)⟩

/-! ### `agent_orchestrator.py`: content processing pipeline

Outbound calls are oracles bundled in a `ContentEnv`: `chat` is the
retry-wrapped `chat_completion`, `vision` the retry-wrapped
`vision_completion` (an `Except.error` is an exception escaping the retry
handler), `videoAvailable` is `VideoProcessor.is_available`, and
`extractFrames` the `(frames, error)` pair `extract_frames` returns. -/

/-- A Python payload: `bytes` or `str`. -/
inductive PyData where
  | bytes (data : List ℕ)
  | str (s : String)
  deriving Repr

/-- An extracted video frame (`video_processor.VideoFrame`). -/
structure VideoFrame where
  frame_number : ℤ
  timestamp_seconds : ℚ
  image_data : List ℕ
  deriving Repr

/-- The outbound-call oracles `process_content` consumes. -/
structure ContentEnv where
  contentAgent : Option AgentPrompt
  chat : List ChatMessage → Except PyExc String
  vision : String → PyData → Except PyExc String
  videoAvailable : Bool
  extractFrames : List VideoFrame × Option String

/-- Python `s or dflt` for plain strings (empty is falsy). -/
def pyOrStr (s dflt : String) : String := if s ≠ "" then s else dflt

/-- UTF-8 decoding of a byte list (standard 1–4 byte sequences; the
rejection of overlong encodings and surrogates that CPython additionally
performs is outside the model — the properties proved treat the decoded
text opaquely). -/
def utf8Decode : List ℕ → Option (List Char)
  | [] => some []
  | b :: rest =>
    if b < 0x80 then (utf8Decode rest).map (fun cs => Char.ofNat b :: cs)
    else if b < 0xC0 then none
    else if b < 0xE0 then
      match rest with
      | b2 :: rest2 =>
        if 0x80 ≤ b2 ∧ b2 < 0xC0 then
          (utf8Decode rest2).map
            (fun cs => Char.ofNat ((b - 0xC0) * 64 + (b2 - 0x80)) :: cs)
        else none
      | [] => none
    else if b < 0xF0 then
      match rest with
      | b2 :: b3 :: rest2 =>
        if (0x80 ≤ b2 ∧ b2 < 0xC0) ∧ (0x80 ≤ b3 ∧ b3 < 0xC0) then
          (utf8Decode rest2).map
            (fun cs => Char.ofNat ((b - 0xE0) * 4096 + (b2 - 0x80) * 64 + (b3 - 0x80)) :: cs)
        else none
      | _ => none
    else if b < 0xF8 then
      match rest with
      | b2 :: b3 :: b4 :: rest2 =>
        if (0x80 ≤ b2 ∧ b2 < 0xC0) ∧ (0x80 ≤ b3 ∧ b3 < 0xC0) ∧ (0x80 ≤ b4 ∧ b4 < 0xC0) then
          (utf8Decode rest2).map
            (fun cs => Char.ofNat ((b - 0xF0) * 262144 + (b2 - 0x80) * 4096
              + (b3 - 0x80) * 64 + (b4 - 0x80)) :: cs)
        else none
      | _ => none
    else none

/-- Latin-1 decoding (total: each byte is its own code point). -/
def latin1Decode (bs : List ℕ) : List Char :=
  bs.map Char.ofNat

/-- `AgentOrchestrator._create_error_content_result`. -/
def create_error_content_result (content_type error_message : String) : ExtractionResult :=
  { title := "Processing Failed",
    summary := "Failed to process " ++ content_type ++ " content.",
    key_points := [],
    concepts := [],
    topics := [],
    source_type := content_type,
    processing_status := "failed",
    error_message := some error_message }

/-- `AgentOrchestrator._create_fallback_content_result`. -/
def create_fallback_content_result (content_type filename : String) : ExtractionResult :=
  { title := pyOrStr filename "Uploaded Content",
    summary := "[Fallback Mode] Content of type " ++ String.singleton aposChar
      ++ content_type ++ String.singleton aposChar
      ++ " was uploaded. AI analysis is currently unavailable.",
    key_points := ["[Fallback] Content uploaded successfully",
                   "[Fallback] AI analysis unavailable - please configure NEBIUS_API_KEY"],
    concepts := [],
    topics := [],
    source_type := content_type,
    processing_status := "partial",
    error_message := some "AI service unavailable. Using fallback mode." }

/-- `AgentOrchestrator._normalize_content_result` (the `.strip()` calls on
`title`/`summary` raise on non-string values, modelled as `Except.error`;
list-valued fields are sanitized elementwise with total `str()`). -/
def normalize_content_result (data : List (String × JValue))
    (content_type filename : String) : Except PyExc ExtractionResult :=
  match stripStrValue ((jget data "title").getD (.str "")) with
  | .error e => .error e
  | .ok title0 =>
    let title := if title0 = "" then pyOrStr filename "Extracted Content" else title0
    match stripStrValue ((jget data "summary").getD (.str "")) with
    | .error e => .error e
    | .ok summary0 =>
      let summary := if summary0 = "" then "No summary available." else summary0
      let keyPointsRaw :=
        match (jget data "key_points").getD (.arr []) with
        | .arr ps => ps
        | _ => []
      let keyPoints := (keyPointsRaw.filter pyTruthy).map (fun p => pyStrip (pyStr p))
      let keyPoints := if keyPoints = [] then ["No key points extracted."] else keyPoints
      let conceptsRaw :=
        match (jget data "concepts").getD (.arr []) with
        | .arr cs => cs
        | _ => []
      let concepts := conceptsRaw.filterMap (fun c =>
        match c with
        | .obj cd =>
          if pyTruthy ((jget cd "term").getD .null) then
            some { term := pyStrip (pyStr ((jget cd "term").getD (.str ""))),
                   definition := pyStrip (pyStr ((jget cd "definition").getD (.str ""))) }
          else none
        | _ => none)
      let topicsRaw :=
        match (jget data "topics").getD (.arr []) with
        | .arr ts => ts
        | _ => []
      let topics := (topicsRaw.filter pyTruthy).map (fun t => pyStrip (pyStr t))
      .ok { title := title,
            summary := summary,
            key_points := keyPoints,
            concepts := concepts,
            topics := topics,
            source_type := content_type,
            processing_status := "complete",
            error_message := none }

/-- `AgentOrchestrator._extract_from_plain_text`: best-effort plain-text
extraction when JSON parsing fails; always a `partial` result. -/
def extract_from_plain_text (response : String) (content_type filename : String) :
    ExtractionResult :=
  let lines := splitOnSub ['\n'] (pyStripL response.data)
  let title0 :=
    match lines with
    | [] => filename
    | l0 :: _ => pyStrip ⟨l0⟩
  let title := if title0.length > 100 then pyOrStr filename "Extracted Content" else title0
  let summary :=
    if lines.length > 1 then
      pyStrip ⟨(List.intercalate [' '] (lines.drop 1))⟩
    else ⟨response.data.take 500⟩
  { title := title,
    summary := summary,
    key_points := ["Content was processed but structured extraction failed."],
    concepts := [],
    topics := [],
    source_type := content_type,
    processing_status := "partial",
    error_message := some "Could not parse structured response from AI." }

/-- `AgentOrchestrator._parse_content_response`: strip, unfence, slice the
first balanced object, decode; a decode failure degrades to the
plain-text extraction, an empty response to the fallback result, and a
decoded non-dict raises (caught by every caller). -/
def parse_content_response (response : String) (content_type filename : String) :
    Except PyExc ExtractionResult :=
  if response = "" then .ok (create_fallback_content_result content_type filename)
  else
    let jsonStr := pyStripL response.data
    let jsonStr := fenceExtract jsonStr
    let jsonStr := sliceBalanced obraceChar cbraceChar jsonStr
    match jsonLoads jsonStr with
    | none => .ok (extract_from_plain_text response content_type filename)
    | some (.obj d) => normalize_content_result d content_type filename
    | some _ => .error (.generic "AttributeError" "object has no attribute get")

/-- The JSON format instruction appended to the content system prompt. -/
def contentJsonFormatInstruction : String :=
  "\n\nIMPORTANT: You MUST respond with ONLY valid JSON. Do not include any text before or after the JSON.\n\nRespond in this exact JSON format:\n\x7b\n    \"title\": \"A descriptive title for the content\",\n    \"summary\": \"A comprehensive summary of the content\",\n    \"key_points\": [\"Key point 1\", \"Key point 2\", \"Key point 3\"],\n    \"concepts\": [\n        \x7b\"term\": \"Concept name\", \"definition\": \"Definition of the concept\"\x7d\n    ],\n    \"topics\": [\"Topic 1\", \"Topic 2\"]\n\x7d\n\nRules:\n- title: A clear, descriptive title\n- summary: A comprehensive summary (2-4 sentences)\n- key_points: At least 3 key points, each as a complete sentence\n- concepts: Important terms with their definitions\n- topics: Main topics covered in the content"

/-- `AgentOrchestrator._build_content_messages`. -/
def build_content_messages (agent : AgentPrompt) (text_content content_type filename : String) :
    List ChatMessage :=
  [⟨"system", agent.system_prompt ++ contentJsonFormatInstruction⟩,
   ⟨"user", "Content Type: " ++ content_type ++ "\nFilename: " ++ filename
      ++ "\n\nContent to analyze:\n" ++ text_content
      ++ "\n\nExtract the key information from this content and respond with ONLY the JSON object."⟩]

/-- `AgentOrchestrator._build_vision_prompt`. -/
def build_vision_prompt (agent : AgentPrompt) (filename : String) : String :=
  agent.system_prompt
    ++ "\n\nAnalyze this image and extract educational content. Provide your response in the following JSON format:\n\x7b\n    \"title\": \"A descriptive title for the content\",\n    \"summary\": \"A comprehensive summary of what the image shows\",\n    \"key_points\": [\"Key point 1\", \"Key point 2\", \"Key point 3\"],\n    \"concepts\": [\n        \x7b\"term\": \"Concept name\", \"definition\": \"Definition of the concept\"\x7d\n    ],\n    \"topics\": [\"Topic 1\", \"Topic 2\"]\n\x7d\n\nFilename: "
    ++ filename
    ++ "\n\nAnalyze the image thoroughly and extract all educational information visible."

/-- Python `f"{q:.1f}"` formatting of a (nonnegative) rational timestamp,
modelled as round-half-up to one decimal. -/
def formatQ1 (q : ℚ) : String :=
  let scaled : ℤ := pyIntQ (q * 10 + 1 / 2)
  toString (scaled / 10) ++ "." ++ toString (scaled % 10)

/-- `AgentOrchestrator._build_video_frame_prompt`. -/
def build_video_frame_prompt (agent : AgentPrompt) (filename : String)
    (timestamp : ℚ) (frameIndex totalFrames : ℕ) : String :=
  agent.system_prompt
    ++ "\n\nYou are analyzing frame " ++ toString frameIndex ++ " of " ++ toString totalFrames
    ++ " from a video file.\nThis frame is from approximately " ++ formatQ1 timestamp
    ++ " seconds into the video.\n\nAnalyze this video frame and extract educational content. Provide your response in the following JSON format:\n\x7b\n    \"title\": \"A descriptive title for what this frame shows\",\n    \"summary\": \"A description of what is shown in this frame\",\n    \"key_points\": [\"Key observation 1\", \"Key observation 2\"],\n    \"concepts\": [\n        \x7b\"term\": \"Concept name\", \"definition\": \"Definition if visible\"\x7d\n    ],\n    \"topics\": [\"Topic 1\", \"Topic 2\"]\n\x7d\n\nVideo filename: "
    ++ filename
    ++ "\nFrame timestamp: " ++ formatQ1 timestamp
    ++ "s\n\nAnalyze the frame thoroughly and extract all educational information visible."

/-- `AgentOrchestrator._is_image_content`. -/
def is_image_content (content_type : String) : Bool :=
  ["image", "png", "jpg", "jpeg", "gif", "webp", "bmp"].any
    (fun t => containsSub t.data (pyLower content_type).data)

/-- `AgentOrchestrator._process_single_chunk`: one retried chat call, the
parse of its response, with every exception translated into a `failed`
error result carrying only the safe user message. -/
def process_single_chunk (env : ContentEnv) (agent : AgentPrompt)
    (text_content content_type filename : String) : ExtractionResult :=
  match env.chat (build_content_messages agent text_content content_type filename) with
  | .ok response =>
    match parse_content_response response content_type filename with
    | .ok r => r
    | .error e =>
      create_error_content_result content_type (AIErrorResponse.from_exception e).user_message
  | .error e =>
    create_error_content_result content_type (AIErrorResponse.from_exception e).user_message

/-- `AgentOrchestrator._process_large_document`: chunk, process each chunk
(failed chunks skipped), combine; `failed` only when no chunk succeeds.
The inner `none` arm of the combine is unreachable (the result list is
guarded non-empty). -/
def process_large_document (env : ContentEnv) (agent : AgentPrompt)
    (text_content content_type filename : String) (maxChunkChars : ℕ) : ExtractionResult :=
  let chunks := chunk_document text_content.data maxChunkChars
  let chunkResults := (chunks.enum).filterMap (fun p =>
    let r := process_single_chunk env agent ⟨p.2⟩ content_type
      (filename ++ " (part " ++ toString (p.1 + 1) ++ "/" ++ toString chunks.length ++ ")")
    if r.processing_status ≠ "failed" then some r else none)
  if chunkResults.isEmpty then
    create_error_content_result content_type "Failed to process any chunks of the document."
  else
    match combine_chunk_results chunkResults content_type filename with
    | some r => r
    | none =>
      create_error_content_result content_type "Failed to process any chunks of the document."

/-- `AgentOrchestrator._process_text_content`: decode bytes (UTF-8, then
Latin-1 with replacement), then chunked or single-chunk processing at the
12000-character threshold. -/
def process_text_content (env : ContentEnv) (agent : AgentPrompt)
    (content_data : PyData) (content_type filename : String) : ExtractionResult :=
  let text : String :=
    match content_data with
    | .str s => s
    | .bytes bs =>
      match utf8Decode bs with
      | some cs => ⟨cs⟩
      | none => ⟨latin1Decode bs⟩
  if text.length > 12000 then
    process_large_document env agent text content_type filename 12000
  else
    process_single_chunk env agent text content_type filename

/-- `AgentOrchestrator._process_image_content`. -/
def process_image_content (env : ContentEnv) (agent : AgentPrompt)
    (image_data : PyData) (filename : String) : ExtractionResult :=
  match env.vision (build_vision_prompt agent filename) image_data with
  | .ok response =>
    match parse_content_response response "image" filename with
    | .ok r => r
    | .error e =>
      create_error_content_result "image" (AIErrorResponse.from_exception e).user_message
  | .error e =>
    create_error_content_result "image" (AIErrorResponse.from_exception e).user_message

/-- `AgentOrchestrator._analyze_video_frame`: `none` models a caught
per-frame failure. -/
def analyze_video_frame (env : ContentEnv) (agent : AgentPrompt) (frame : VideoFrame)
    (filename : String) (frameIndex totalFrames : ℕ) : Option ExtractionResult :=
  match env.vision
      (build_video_frame_prompt agent filename frame.timestamp_seconds frameIndex totalFrames)
      (.bytes frame.image_data) with
  | .ok response =>
    match parse_content_response response "video_frame" filename with
    | .ok r => some r
    | .error _ => none
  | .error _ => none

/-- Python `filename.rsplit(".", 1)[0] if "." in filename else filename`. -/
def dropAfterLastDot (s : String) : String :=
  if containsSub ['.'] s.data then
    ⟨s.data.take (s.data.length - 1 - ((s.data.reverse.findIdx? (· = '.')).getD 0))⟩
  else s

/-- `AgentOrchestrator._combine_video_frame_analyses`. -/
def combine_video_frame_analyses (frameAnalyses : List ExtractionResult)
    (filename : String) : ExtractionResult :=
  let baseTitle := dropAfterLastDot filename
  let title :=
    match frameAnalyses.head? with
    | some a0 =>
      if a0.title ≠ "" ∧ ¬ isPrefixL ['['] a0.title.data then a0.title else baseTitle
    | none => baseTitle
  let summaries := (frameAnalyses.enum).filterMap (fun p =>
    if p.2.summary ≠ "" ∧ ¬ isPrefixL ['['] p.2.summary.data then
      some ("[Frame " ++ toString (p.1 + 1) ++ "] " ++ p.2.summary)
    else none)
  let combinedSummary :=
    if ¬ summaries.isEmpty then String.intercalate " " summaries
    else "Video analysis of " ++ filename
  let allKeyPoints :=
    dedupLoop lowerStripKey (fun point => point ≠ "" ∧ ¬ isPrefixL ['['] point.data) []
      ((frameAnalyses.map (·.key_points)).flatten)
  let allConcepts :=
    dedupLoop conceptKey (fun c => conceptKey c ≠ "") []
      ((frameAnalyses.map (·.concepts)).flatten)
  let allTopics :=
    dedupLoop lowerStripKey (fun t => t ≠ "") []
      ((frameAnalyses.map (·.topics)).flatten)
  { title := title,
    summary := combinedSummary,
    key_points := allKeyPoints.take 10,
    concepts := allConcepts.take 10,
    topics := allTopics.take 10,
    source_type := "video",
    processing_status := "complete",
    error_message := none }

/-- `AgentOrchestrator._process_video_content`. -/
def process_video_content (env : ContentEnv) (agent : AgentPrompt)
    (video_data : PyData) (filename : String) : ExtractionResult :=
  if ¬ env.videoAvailable then
    create_error_content_result "video"
      "Video processing is not available. Please install opencv-python."
  else
    let frames := env.extractFrames.1
    let err := env.extractFrames.2
    let errTruthy : Bool :=
      match err with
      | some m => m ≠ ""
      | none => false
    if errTruthy ∨ frames.isEmpty then
      create_error_content_result "video"
        (match err with
         | some m => pyOrStr m "Failed to extract frames from video."
         | none => "Failed to extract frames from video.")
    else
      let frameAnalyses := (frames.enum).filterMap (fun p =>
        analyze_video_frame env agent p.2 filename (p.1 + 1) frames.length)
      if frameAnalyses.isEmpty then
        create_error_content_result "video" "Failed to analyze any frames from the video."
      else
        combine_video_frame_analyses frameAnalyses filename

/-- `AgentOrchestrator.process_content`: route by declared medium, with
unknown string-typed content processed as text and unknown binary content
rejected.  The function is total — the source wraps the routing in a
catch-all `except` whose inner calls already catch their own exceptions,
so no exception ever escapes. -/
def process_content (env : ContentEnv) (content_data : PyData)
    (content_type filename : String) : ExtractionResult :=
  match env.contentAgent with
  | none => create_error_content_result content_type "ContentAgent is not available."
  | some agent =>
    let ctl := pyLower content_type
    if ctl = "image" ∨ is_image_content ctl then
      process_image_content env agent content_data filename
    else if ctl = "pdf" ∨ ctl = "text" then
      process_text_content env agent content_data ctl filename
    else if ctl = "video" then
      process_video_content env agent content_data filename
    else
      match content_data with
      | .str s => process_text_content env agent (.str s) ctl filename
      | .bytes _ =>
        create_error_content_result content_type ("Unsupported content type: " ++ content_type)

/-! ### Claim C10 -/

/-- The dictionary rendering of an `ExtractionResult`: exactly the eight
keys every producing site of the source writes, in source order. -/
def ExtractionResult.to_dict (r : ExtractionResult) : List (String × JValue) :=
  [("title", .str r.title),
   ("summary", .str r.summary),
   ("key_points", .arr (r.key_points.map JValue.str)),
   ("concepts", .arr (r.concepts.map (fun c =>
      .obj [("term", .str c.term), ("definition", .str c.definition)]))),
   ("topics", .arr (r.topics.map JValue.str)),
   ("source_type", .str r.source_type),
   ("processing_status", .str r.processing_status),
   ("error_message", match r.error_message with | some m => .str m | none => .null)]

/-- `_normalize_content_result` succeeds only with a `complete` status. -/
theorem normalize_content_result_status (d : List (String × JValue)) (ct fn : String)
    (r : ExtractionResult) (h : normalize_content_result d ct fn = .ok r) :
    r.processing_status = "complete" := by
  simp only [normalize_content_result] at h
  split at h
  · exact absurd h (by simp)
  · split at h
    · exact absurd h (by simp)
    · injection h with h2
      subst h2
      rfl

/-- `_parse_content_response` succeeds only with a `complete` or `partial`
status. -/
theorem parse_content_response_status (resp ct fn : String) (r : ExtractionResult)
    (h : parse_content_response resp ct fn = .ok r) :
    r.processing_status = "complete" ∨ r.processing_status = "partial" := by
  simp only [parse_content_response] at h
  split at h
  · injection h with h2
    subst h2
    exact Or.inr rfl
  · split at h
    · injection h with h2
      subst h2
      exact Or.inr rfl
    · exact Or.inl (normalize_content_result_status _ _ _ _ h)
    · exact absurd h (by simp)

/-- The status set every pipeline terminal draws from. -/
def statusSet : List String := ["complete", "partial", "failed"]

/-- `_process_single_chunk` only produces the three pipeline statuses. -/
theorem process_single_chunk_status (env : ContentEnv) (agent : AgentPrompt)
    (t ct fn : String) :
    (process_single_chunk env agent t ct fn).processing_status ∈ statusSet := by
  simp only [process_single_chunk]
  split
  · split
    · rename_i r hp
      rcases parse_content_response_status _ _ _ _ hp with h | h <;> simp [statusSet, h]
    · simp [statusSet, create_error_content_result]
  · simp [statusSet, create_error_content_result]

/-- `_combine_chunk_results` succeeds only with a `complete` status. -/
theorem combine_chunk_results_status (rs : List ExtractionResult) (ct fn : String)
    (r : ExtractionResult) (h : combine_chunk_results rs ct fn = some r) :
    r.processing_status = "complete" := by
  match rs with
  | [] => simp [combine_chunk_results] at h
  | r0 :: rest =>
    simp only [combine_chunk_results, Option.some.injEq] at h
    subst h
    rfl

/-- `_process_large_document` only produces the three pipeline statuses. -/
theorem process_large_document_status (env : ContentEnv) (agent : AgentPrompt)
    (t ct fn : String) (m : ℕ) :
    (process_large_document env agent t ct fn m).processing_status ∈ statusSet := by
  simp only [process_large_document]
  split
  · simp [statusSet, create_error_content_result]
  · split
    · rename_i r hcomb
      simp [statusSet, combine_chunk_results_status _ _ _ _ hcomb]
    · simp [statusSet, create_error_content_result]

/-- `_process_text_content` only produces the three pipeline statuses. -/
theorem process_text_content_status (env : ContentEnv) (agent : AgentPrompt)
    (data : PyData) (ct fn : String) :
    (process_text_content env agent data ct fn).processing_status ∈ statusSet := by
  simp only [process_text_content]
  split
  · exact process_large_document_status env agent _ ct fn 12000
  · exact process_single_chunk_status env agent _ ct fn

/-- `_process_image_content` only produces the three pipeline statuses. -/
theorem process_image_content_status (env : ContentEnv) (agent : AgentPrompt)
    (data : PyData) (fn : String) :
    (process_image_content env agent data fn).processing_status ∈ statusSet := by
  simp only [process_image_content]
  split
  · split
    · rename_i r hp
      rcases parse_content_response_status _ _ _ _ hp with h | h <;> simp [statusSet, h]
    · simp [statusSet, create_error_content_result]
  · simp [statusSet, create_error_content_result]

/-- `_process_video_content` only produces the three pipeline statuses. -/
theorem process_video_content_status (env : ContentEnv) (agent : AgentPrompt)
    (data : PyData) (fn : String) :
    (process_video_content env agent data fn).processing_status ∈ statusSet := by
  simp only [process_video_content]
  split
  · simp [statusSet, create_error_content_result]
  · split
    · simp [statusSet, create_error_content_result]
    · split
      · simp [statusSet, create_error_content_result]
      · simp [statusSet, combine_video_frame_analyses]

/-- C10: `process_content` is total (it never raises: the embedding is a
total function, matching the catch-all whose inner calls already catch);
its result always renders to a dict with exactly the keys `title`,
`summary`, `key_points`, `concepts`, `topics`, `source_type`,
`processing_status`, `error_message` and a `processing_status` among
`complete`/`partial`/`failed`; an unknown content type with string data
is processed as text, while an unknown content type with binary data
yields the `failed` unsupported-type result. -/
theorem process_content_total_spec :
    (∀ (env : ContentEnv) (data : PyData) (ct fn : String),
      ((process_content env data ct fn).to_dict).map Prod.fst
        = ["title", "summary", "key_points", "concepts", "topics", "source_type",
           "processing_status", "error_message"] ∧
      (process_content env data ct fn).processing_status ∈ statusSet) ∧
    (∀ (env : ContentEnv) (agent : AgentPrompt) (s : String) (ct fn : String),
      env.contentAgent = some agent →
      pyLower ct ≠ "image" → is_image_content (pyLower ct) = false →
      pyLower ct ≠ "pdf" → pyLower ct ≠ "text" → pyLower ct ≠ "video" →
      process_content env (.str s) ct fn
        = process_text_content env agent (.str s) (pyLower ct) fn) ∧
    (∀ (env : ContentEnv) (agent : AgentPrompt) (bs : List ℕ) (ct fn : String),
      env.contentAgent = some agent →
      pyLower ct ≠ "image" → is_image_content (pyLower ct) = false →
      pyLower ct ≠ "pdf" → pyLower ct ≠ "text" → pyLower ct ≠ "video" →
      process_content env (.bytes bs) ct fn
        = create_error_content_result ct ("Unsupported content type: " ++ ct) ∧
      (process_content env (.bytes bs) ct fn).processing_status = "failed") := by
  refine ⟨?_, ?_, ?_⟩
  · intro env data ct fn
    refine ⟨rfl, ?_⟩
    simp only [process_content]
    split
    · simp [statusSet, create_error_content_result]
    · split
      · exact process_image_content_status _ _ _ _
      · split
        · exact process_text_content_status _ _ _ _ _
        · split
          · exact process_video_content_status _ _ _ _
          · split
            · exact process_text_content_status _ _ _ _ _
            · simp [statusSet, create_error_content_result]
  · intro env agent s ct fn hagent h1 h2 h3 h4 h5
    simp only [process_content, hagent]
    rw [if_neg (by simp [h1, h2]), if_neg (by simp [h3, h4]), if_neg h5]
  · intro env agent bs ct fn hagent h1 h2 h3 h4 h5
    constructor
    · simp only [process_content, hagent]
      rw [if_neg (by simp [h1, h2]), if_neg (by simp [h3, h4]), if_neg h5]
    · simp only [process_content, hagent]
      rw [if_neg (by simp [h1, h2]), if_neg (by simp [h3, h4]), if_neg h5]
      rfl

/-- A concrete environment for the C10 witness: agent available, chat
returning plain prose, vision erroring, video unavailable. -/
def witnessEnv : ContentEnv :=
  { contentAgent := some ⟨"You are a content processor."⟩,
    chat := fun _ => .ok "Notes\nJust some plain text.",
    vision := fun _ _ => .error (.apiTimeout "timed out"),
    videoAvailable := false,
    extractFrames := ([], some "no frames") }

/-- Witness for C10 at concrete inputs: the unknown type `"markdown"`
routes string data into text processing and rejects binary data as
`failed`. -/
theorem process_content_total_spec_witness :
    (witnessEnv.contentAgent = some ⟨"You are a content processor."⟩ ∧
      pyLower "markdown" ≠ "image" ∧ is_image_content (pyLower "markdown") = false ∧
      pyLower "markdown" ≠ "pdf" ∧ pyLower "markdown" ≠ "text" ∧
      pyLower "markdown" ≠ "video") ∧
    process_content witnessEnv (.str "hello world") "markdown" "notes.md"
      = process_text_content witnessEnv ⟨"You are a content processor."⟩
          (.str "hello world") (pyLower "markdown") "notes.md" ∧
    (process_content witnessEnv (.bytes [0, 1, 2]) "markdown" "notes.md"
        = create_error_content_result "markdown" ("Unsupported content type: " ++ "markdown") ∧
      (process_content witnessEnv (.bytes [0, 1, 2]) "markdown" "notes.md").processing_status
        = "failed") :=
  ⟨⟨rfl, by decide, by decide, by decide, by decide, by decide⟩,
   process_content_total_spec.2.1 witnessEnv ⟨"You are a content processor."⟩
     "hello world" "markdown" "notes.md" rfl (by decide) (by decide) (by decide)
     (by decide) (by decide),
   process_content_total_spec.2.2 witnessEnv ⟨"You are a content processor."⟩
     [0, 1, 2] "markdown" "notes.md" rfl (by decide) (by decide) (by decide)
     (by decide) (by decide)⟩

end MentorMind
